import Mathlib

/-!
Verification development for the `clustersetup` package of the
custom-kub-cli repository (a bare-metal Kubernetes cluster bootstrapper).

The Go sources are shallowly embedded:

* the pure data model (`types.go`) becomes Lean structures;
* the validation section of `LoadClusterConfig` (`config.go`) becomes a
  pure function `validateClusterConfig` on an already-unmarshalled
  `ClusterConfig` (reading the YAML file and `os.MkdirAll` are I/O and
  stay outside the embedding);
* the orchestrator (`manager.go`, `setup.go`) becomes a family of
  functions threading an explicit state (`St`: wall-clock seconds, a
  global call counter, and the list of effects performed so far) against
  an environment (`Env`) that decides the outcome of every remote
  command, file copy, certificate operation and local write — the Lean
  counterpart of the `SSHClient` / `CertificateManager` interfaces;
* the SSH transport itself (`sshconfig.go`) is embedded separately at the
  session level to reason about its (non-)use of the context argument;
* the artifact renderers (`helpers.go`) become pure string functions.

Go iterates maps in unspecified order; the two map literals used for
uploading systemd unit files are embedded in their source-literal order,
which no theorem below depends on.
-/

namespace ClusterSetup

/-- `Node` from types.go. -/
structure Node where
  name : String
  ipAddress : String
  hostname : String
  podCIDR : String
deriving DecidableEq, Repr

/-- `CertificateConfig` from types.go (`ValidityDays` is a Go `int`). -/
structure CertificateConfig where
  country : String
  state : String
  city : String
  organization : String
  organizationalUnit : String
  validityDays : Int
deriving DecidableEq, Repr

/-- `ClusterConfig` from types.go. -/
structure ClusterConfig where
  clusterName : String
  kubernetesVersion : String
  etcdVersion : String
  containerdVersion : String
  cniVersion : String
  corednsVersion : String
  podCIDR : String
  serviceCIDR : String
  clusterDNS : String
  workDir : String
  sshKey : String
  sshUser : String
  controller : Node
  workers : List Node
  certificates : CertificateConfig
deriving DecidableEq, Repr

/-- The worker loop of `LoadClusterConfig` (config.go lines 66-70): the
first worker with an empty IP address, name or pod CIDR aborts with an
error naming it. -/
def validateWorkers : List Node → Except String Unit
  | [] => Except.ok ()
  | w :: rest =>
    if w.ipAddress = "" ∨ w.name = "" ∨ w.podCIDR = "" then
      Except.error ("worker " ++ w.name ++ " configuration is incomplete")
    else validateWorkers rest

/-- The validation section of `LoadClusterConfig` (config.go lines 24-73),
applied to the configuration produced by YAML unmarshalling.  The
surrounding I/O (reading the file, `yaml.Unmarshal`, `os.MkdirAll` on the
work directory) is outside the embedding. -/
def validateClusterConfig (config : ClusterConfig) : Except String Unit :=
  if config.clusterName = "" then Except.error "cluster_name is required"
  else if config.kubernetesVersion = "" then Except.error "kubernetes_version is required"
  else if config.etcdVersion = "" then Except.error "etcd_version is required"
  else if config.containerdVersion = "" then Except.error "containerd_version is required"
  else if config.cniVersion = "" then Except.error "cni_version is required"
  else if config.corednsVersion = "" then Except.error "coredns_version is required"
  else if config.podCIDR = "" then Except.error "pod_cidr is required"
  else if config.serviceCIDR = "" then Except.error "service_cidr is required"
  else if config.clusterDNS = "" then Except.error "cluster_dns is required"
  else if config.workDir = "" then Except.error "work_dir is required"
  else if config.sshKey = "" then Except.error "ssh_key is required"
  else if config.sshUser = "" then Except.error "ssh_user is required"
  else if config.controller.ipAddress = "" ∨ config.controller.name = "" then
    Except.error "controller configuration is incomplete"
  else if config.workers.length = 0 then Except.error "at least one worker node is required"
  else
    match validateWorkers config.workers with
    | Except.error e => Except.error e
    | Except.ok _ =>
      if config.certificates.country = "" ∨ config.certificates.validityDays ≤ 0 then
        Except.error "certificate configuration is incomplete"
      else Except.ok ()

/-- A configuration with every required field non-empty but with two
workers sharing one name and with the controller's IP address equal to
both workers' IP addresses.  `validateClusterConfig` accepts it. -/
def invalidDupConfig : ClusterConfig :=
  { clusterName := "test-cluster"
    kubernetesVersion := "v1.26.0"
    etcdVersion := "v3.5.9"
    containerdVersion := "1.7.2"
    cniVersion := "v1.3.0"
    corednsVersion := "1.10.1"
    podCIDR := "10.200.0.0/16"
    serviceCIDR := "10.32.0.0/24"
    clusterDNS := "10.32.0.10"
    workDir := "/tmp/test-k8s"
    sshKey := "~/.ssh/test.pem"
    sshUser := "ubuntu"
    controller := { name := "controller-0", ipAddress := "10.240.0.10",
                    hostname := "controller-0", podCIDR := "" }
    workers :=
      [ { name := "worker-0", ipAddress := "10.240.0.10",
          hostname := "worker-0", podCIDR := "10.200.0.0/24" },
        { name := "worker-0", ipAddress := "10.240.0.10",
          hostname := "worker-1", podCIDR := "10.200.1.0/24" } ]
    certificates :=
      { country := "US", state := "CA", city := "SF", organization := "Test",
        organizationalUnit := "IT", validityDays := 365 } }

/-- `GenerateDefaultConfig` from config.go. -/
def GenerateDefaultConfig : ClusterConfig :=
  { clusterName := "my-cluster"
    kubernetesVersion := "v1.26.0"
    etcdVersion := "v3.5.9"
    containerdVersion := "v1.7.2"
    cniVersion := "v1.3.0"
    corednsVersion := "1.10.1"
    podCIDR := "10.200.0.0/16"
    serviceCIDR := "10.32.0.0/24"
    clusterDNS := "10.32.0.10"
    workDir := "/tmp/k8s-hard-way"
    sshKey := "~/.ssh/id_rsa"
    sshUser := "ubuntu"
    controller := { name := "controller-0", ipAddress := "10.240.0.10",
                    hostname := "controller-0", podCIDR := "" }
    workers :=
      [ { name := "worker-0", ipAddress := "10.240.0.20",
          hostname := "worker-0", podCIDR := "10.200.0.0/24" },
        { name := "worker-1", ipAddress := "10.240.0.21",
          hostname := "worker-1", podCIDR := "10.200.1.0/24" },
        { name := "worker-2", ipAddress := "10.240.0.22",
          hostname := "worker-2", podCIDR := "10.200.2.0/24" } ]
    certificates :=
      { country := "US", state := "California", city := "San Francisco",
        organization := "ExampleOrg", organizationalUnit := "IT",
        validityDays := 365 } }

/-!
## Effect traces

The orchestrator's observable behaviour is a list of effects (`Action`),
produced against an `Env` that plays the role of the `SSHClient`,
`CertificateManager`, `crypto/rand` and local-filesystem collaborators.
A remote command's outcome is `some stdout` on success and `none` when
the transport reports an error.  All outcomes are keyed by a global
operation counter `St.idx`, so an environment can answer differently on
successive calls (as a real host does while a service is starting).
`St.time` advances only on `time.Sleep`, modelling the wall clock that
`waitForService` reads.
-/

/-- One observable effect of the orchestrator. -/
inductive Action where
  | exec (host cmd : String) (result : Option String)
  | copyFile (host localPath remotePath : String) (ok : Bool)
  | copyContent (host remotePath content : String) (ok : Bool)
  | sleep (seconds : Nat)
  | generateCA (workDir : String) (ok : Bool)
  | generateClientCert (workDir name : String) (ok : Bool)
  | generateServerCert (workDir name : String) (hosts : List String) (ok : Bool)
  | writeLocal (path content : String) (ok : Bool)
  | mkdirLocal (path : String) (ok : Bool)
  | removeDirLocal (path : String) (ok : Bool)
  | report (step total : Nat) (phase : String)
deriving DecidableEq, Repr

/-- The collaborators' behaviour, keyed by the global operation counter. -/
structure Env where
  execRes : Nat → String → String → Option String
  copyFileOk : Nat → Bool
  copyContentOk : Nat → Bool
  certOk : Nat → Bool
  writeOk : Nat → Bool
  mkdirOk : Nat → Bool
  removeOk : Nat → Bool
  randOk : Nat → Bool
  randByte : Nat → Nat → Nat

/-- Orchestrator state: wall-clock seconds, operation counter, effects so far. -/
structure St where
  time : Nat
  idx : Nat
  trace : List Action
deriving DecidableEq, Repr

/-- The initial state. -/
def st0 : St := { time := 0, idx := 0, trace := [] }

/-- An environment in which every remote command prints `active` and every
other operation succeeds. -/
def envAllActive : Env :=
  { execRes := fun _ _ _ => some "active"
    copyFileOk := fun _ => true
    copyContentOk := fun _ => true
    certOk := fun _ => true
    writeOk := fun _ => true
    mkdirOk := fun _ => true
    removeOk := fun _ => true
    randOk := fun _ => true
    randByte := fun _ _ => 0 }

/-- Errors surfaced by the orchestrator.  Go formats them with
`fmt.Errorf`; leaf messages are kept as strings, `wrap` mirrors
`fmt.Errorf("<context>: %w", err)`, and `unhealthy service timeoutSecs`
mirrors `fmt.Errorf("service %s did not become healthy within %v", ...)`
from `waitForService`. -/
inductive Err where
  | msg (text : String)
  | unhealthy (service : String) (timeoutSecs : Nat)
  | wrap (context : String) (inner : Err)
deriving DecidableEq, Repr

/-- `SSHClient.ExecuteCommand` as seen by the orchestrator. -/
def execCmd (env : Env) (host cmd : String) (s : St) : St × Option String :=
  let r := env.execRes s.idx host cmd
  ({ s with idx := s.idx + 1, trace := s.trace ++ [Action.exec host cmd r] }, r)

/-- `SSHClient.CopyFile` as seen by the orchestrator. -/
def copyFilePrim (env : Env) (host localPath remotePath : String) (s : St) : St × Bool :=
  let ok := env.copyFileOk s.idx
  ({ s with idx := s.idx + 1,
            trace := s.trace ++ [Action.copyFile host localPath remotePath ok] }, ok)

/-- `SSHClient.CopyContent` as seen by the orchestrator. -/
def copyContentPrim (env : Env) (host content remotePath : String) (s : St) : St × Bool :=
  let ok := env.copyContentOk s.idx
  ({ s with idx := s.idx + 1,
            trace := s.trace ++ [Action.copyContent host remotePath content ok] }, ok)

/-- `time.Sleep` (seconds). -/
def sleepFor (n : Nat) (s : St) : St :=
  { s with time := s.time + n, trace := s.trace ++ [Action.sleep n] }

/-- `ProgressReporter.ReportProgress`. -/
def reportPrim (step total : Nat) (phase : String) (s : St) : St :=
  { s with trace := s.trace ++ [Action.report step total phase] }

/-- `os.MkdirAll`. -/
def mkdirPrim (env : Env) (path : String) (s : St) : St × Bool :=
  let ok := env.mkdirOk s.idx
  ({ s with idx := s.idx + 1, trace := s.trace ++ [Action.mkdirLocal path ok] }, ok)

/-- `os.RemoveAll`. -/
def removeDirPrim (env : Env) (path : String) (s : St) : St × Bool :=
  let ok := env.removeOk s.idx
  ({ s with idx := s.idx + 1, trace := s.trace ++ [Action.removeDirLocal path ok] }, ok)

/-- `ClusterManager.writeFile` (helpers.go): `os.WriteFile(path, content, 0644)`. -/
def writeFilePrim (env : Env) (path content : String) (s : St) : St × Bool :=
  let ok := env.writeOk s.idx
  ({ s with idx := s.idx + 1, trace := s.trace ++ [Action.writeLocal path content ok] }, ok)

/-- A `for _, cmd := range cmds { ExecuteCommand...; on error return wrapped }`
loop, the shape used throughout setup.go and manager.go. -/
def runCmds (env : Env) (host : String) (wrapErr : String → Err) :
    List String → St → St × Except Err Unit
  | [], s => (s, Except.ok ())
  | c :: rest, s =>
    match execCmd env host c s with
    | (s1, none) => (s1, Except.error (wrapErr c))
    | (s1, some _) => runCmds env host wrapErr rest s1

/-- Sequencing of two fallible steps: the second runs only when the first
succeeded (Go's `if err != nil { return err }` pattern). -/
def andThen (x : St × Except Err Unit) (f : St → St × Except Err Unit) :
    St × Except Err Unit :=
  match x with
  | (s, Except.ok _) => f s
  | (s, Except.error e) => (s, Except.error e)

/-- Trace monotonicity: `f` only appends to the trace. -/
def TraceMono (f : St → St × Except Err Unit) : Prop :=
  ∀ s : St, ∃ Δ : List Action, (f s).1.trace = s.trace ++ Δ

/-- New trace elements of `f` all satisfy `P`. -/
def DeltaElems (f : St → St × Except Err Unit) (P : Action → Prop) : Prop :=
  ∀ s : St, ∀ a ∈ (f s).1.trace, a ∈ s.trace ∨ P a

/-!
## Artifact renderers (helpers.go)

Pure string functions; `%s` interpolations become `++`.  Literal braces
are written `\x7b` and `\x7d`.
-/

/-- `generateEtcdService` (helpers.go). -/
def generateEtcdService (controller : Node) : String :=
  "[Unit]\nDescription=etcd\nDocumentation=https://github.com/etcd-io/etcd\nAfter=network.target\n\n[Service]\nUser=etcd\nGroup=etcd\nType=notify\nExecStart=/usr/local/bin/etcd \\\n  --name "
  ++ controller.name ++
  " \\\n  --cert-file=/etc/etcd/kubernetes.pem \\\n  --key-file=/etc/etcd/kubernetes-key.pem \\\n  --peer-cert-file=/etc/etcd/kubernetes.pem \\\n  --peer-key-file=/etc/etcd/kubernetes-key.pem \\\n  --trusted-ca-file=/etc/etcd/ca.pem \\\n  --peer-trusted-ca-file=/etc/etcd/ca.pem \\\n  --client-cert-auth \\\n  --data-dir=/var/lib/etcd\nRestart=on-failure\nRestartSec=5\n\n[Install]\nWantedBy=multi-user.target\n"

/-- `generateAPIServerService` (helpers.go). -/
def generateAPIServerService (config : ClusterConfig) : String :=
  "[Unit]\nDescription=Kubernetes API Server\nDocumentation=https://kubernetes.io/docs/reference/command-line-tools-reference/kube-apiserver/\nAfter=network.target\n\n[Service]\nExecStart=/usr/local/bin/kube-apiserver \\\n  --advertise-address="
  ++ config.controller.ipAddress ++
  " \\\n  --allow-privileged=true \\\n  --apiserver-count=1 \\\n  --authorization-mode=Node,RBAC \\\n  --bind-address=0.0.0.0 \\\n  --client-ca-file=/var/lib/kubernetes/ca.pem \\\n  --enable-admission-plugins=NodeRestriction \\\n  --etcd-cafile=/var/lib/kubernetes/ca.pem \\\n  --etcd-certfile=/var/lib/kubernetes/kubernetes.pem \\\n  --etcd-keyfile=/var/lib/kubernetes/kubernetes-key.pem \\\n  --etcd-servers=https://"
  ++ config.controller.ipAddress ++
  ":2379 \\\n  --encryption-provider-config=/var/lib/kubernetes/encryption-config.yaml \\\n  --kubelet-certificate-authority=/var/lib/kubernetes/ca.pem \\\n  --kubelet-client-certificate=/var/lib/kubernetes/kubernetes.pem \\\n  --kubelet-client-key=/var/lib/kubernetes/kubernetes-key.pem \\\n  --service-account-key-file=/var/lib/kubernetes/service-account.pem \\\n  --service-cluster-ip-range="
  ++ config.serviceCIDR ++
  " \\\n  --service-node-port-range=30000-32767 \\\n  --tls-cert-file=/var/lib/kubernetes/kubernetes.pem \\\n  --tls-private-key-file=/var/lib/kubernetes/kubernetes-key.pem\nRestart=on-failure\nRestartSec=5\n\n[Install]\nWantedBy=multi-user.target\n"

/-- `generateControllerManagerService` (helpers.go). -/
def generateControllerManagerService (config : ClusterConfig) : String :=
  "[Unit]\nDescription=Kubernetes Controller Manager\nDocumentation=https://kubernetes.io/docs/reference/command-line-tools-reference/kube-controller-manager/\nAfter=network.target\n\n[Service]\nExecStart=/usr/local/bin/kube-controller-manager \\\n  --bind-address=0.0.0.0 \\\n  --cluster-cidr="
  ++ config.podCIDR ++
  " \\\n  --leader-elect=true \\\n  --service-account-private-key-file=/var/lib/kubernetes/service-account-key.pem \\\n  --service-cluster-ip-range="
  ++ config.serviceCIDR ++
  " \\\n  --use-service-account-credentials=true \\\n  --v=2 \\\n  --kubeconfig=/var/lib/kubernetes/kube-controller-manager.kubeconfig\nRestart=on-failure\nRestartSec=5\n\n[Install]\nWantedBy=multi-user.target\n"

/-- `generateSchedulerService` (helpers.go). -/
def generateSchedulerService : String :=
  "[Unit]\nDescription=Kubernetes Scheduler\nDocumentation=https://kubernetes.io/docs/reference/command-line-tools-reference/kube-scheduler/\nAfter=network.target\n\n[Service]\nExecStart=/usr/local/bin/kube-scheduler \\\n  --bind-address=0.0.0.0 \\\n  --leader-elect=true \\\n  --v=2 \\\n  --kubeconfig=/var/lib/kubernetes/kube-scheduler.kubeconfig\nRestart=on-failure\nRestartSec=5\n\n[Install]\nWantedBy=multi-user.target\n"

/-- `generateContainerdService` (helpers.go). -/
def generateContainerdService : String :=
  "[Unit]\nDescription=containerd container runtime\nDocumentation=https://containerd.io\nAfter=network.target\n\n[Service]\nExecStart=/bin/containerd\nRestart=on-failure\nRestartSec=5\nDelegate=yes\nKillMode=process\nOOMScoreAdjust=-999\nLimitNOFILE=1048576\nLimitNPROC=infinity\nLimitCORE=infinity\n\n[Install]\nWantedBy=multi-user.target\n"

/-- `generateKubeletService` (helpers.go). -/
def generateKubeletService (worker : Node) : String :=
  "[Unit]\nDescription=Kubernetes Kubelet\nDocumentation=https://kubernetes.io/docs/reference/command-line-tools-reference/kubelet/\nAfter=containerd.service\nRequires=containerd.service\n\n[Service]\nExecStart=/usr/local/bin/kubelet \\\n  --config=/var/lib/kubelet/kubelet-config.yaml \\\n  --container-runtime-endpoint=unix:///var/run/containerd/containerd.sock \\\n  --image-pull-progress-deadline=2m \\\n  --kubeconfig=/var/lib/kubelet/"
  ++ worker.name ++
  ".kubeconfig \\\n  --network-plugin=cni \\\n  --register-node=true \\\n  --v=2\nRestart=on-failure\nRestartSec=5\n\n[Install]\nWantedBy=multi-user.target\n"

/-- `generateKubeProxyService` (helpers.go). -/
def generateKubeProxyService : String :=
  "[Unit]\nDescription=Kubernetes Kube Proxy\nDocumentation=https://kubernetes.io/docs/reference/command-line-tools-reference/kube-proxy/\nAfter=network.target\n\n[Service]\nExecStart=/usr/local/bin/kube-proxy \\\n  --config=/var/lib/kube-proxy/kube-proxy-config.yaml\nRestart=on-failure\nRestartSec=5\n\n[Install]\nWantedBy=multi-user.target\n"

/-- `generateContainerdConfig` (helpers.go). -/
def generateContainerdConfig : String :=
  "version = 2\n[plugins]\n  [plugins.\"io.containerd.grpc.v1.cri\"]\n    [plugins.\"io.containerd.grpc.v1.cri\".containerd]\n      [plugins.\"io.containerd.grpc.v1.cri\".containerd.runtimes]\n        [plugins.\"io.containerd.grpc.v1.cri\".containerd.runtimes.runc]\n          runtime_type = \"io.containerd.runc.v2\"\n          [plugins.\"io.containerd.grpc.v1.cri\".containerd.runtimes.runc.options]\n            SystemdCgroup = true\n"

/-- `generateBridgeNetworkConfig` (helpers.go). -/
def generateBridgeNetworkConfig (podCIDR : String) : String :=
  "\x7b\n  \"cniVersion\": \"0.4.0\",\n  \"name\": \"bridge\",\n  \"type\": \"bridge\",\n  \"bridge\": \"cni0\",\n  \"isGateway\": true,\n  \"ipMasq\": true,\n  \"ipam\": \x7b\n    \"type\": \"host-local\",\n    \"ranges\": [\n      [\x7b\"subnet\": \""
  ++ podCIDR ++
  "\"\x7d]\n    ],\n    \"routes\": [\x7b\"dst\": \"0.0.0.0/0\"\x7d]\n  \x7d\n\x7d\n"

/-- `generateLoopbackNetworkConfig` (helpers.go). -/
def generateLoopbackNetworkConfig : String :=
  "\x7b\n  \"cniVersion\": \"0.4.0\",\n  \"name\": \"loopback\",\n  \"type\": \"loopback\"\n\x7d\n"

/-- `generateKubeletConfig` (helpers.go). -/
def generateKubeletConfig (config : ClusterConfig) (worker : Node) : String :=
  "apiVersion: kubelet.config.k8s.io/v1beta1\nkind: KubeletConfiguration\naddress: "
  ++ worker.ipAddress ++
  "\nauthentication:\n  anonymous:\n    enabled: false\n  webhook:\n    enabled: true\nauthorization:\n  mode: Webhook\nclusterDNS:\n- "
  ++ config.clusterDNS ++
  "\nclusterDomain: cluster.local\npodCIDR: "
  ++ worker.podCIDR ++
  "\nresolvConf: /etc/resolv.conf\n"

/-- `generateKubeProxyConfig` (helpers.go). -/
def generateKubeProxyConfig (config : ClusterConfig) : String :=
  "apiVersion: kubeproxy.config.k8s.io/v1alpha1\nkind: KubeProxyConfiguration\nclientConnection:\n  kubeconfig: /var/lib/kube-proxy/kube-proxy.kubeconfig\nmode: iptables\nclusterCIDR: "
  ++ config.podCIDR ++ "\n"

/-- `generateCoreDNSManifest` (helpers.go). -/
def generateCoreDNSManifest (config : ClusterConfig) : String :=
  "apiVersion: v1\nkind: ServiceAccount\nmetadata:\n  name: coredns\n  namespace: kube-system\n---\napiVersion: rbac.authorization.k8s.io/v1\nkind: ClusterRole\nmetadata:\n  name: coredns\nrules:\n- apiGroups: [\"\"]\n  resources: [\"endpoints\", \"services\", \"pods\", \"namespaces\"]\n  verbs: [\"list\", \"watch\"]\n---\napiVersion: rbac.authorization.k8s.io/v1\nkind: ClusterRoleBinding\nmetadata:\n  name: coredns\nroleRef:\n  apiGroup: rbac.authorization.k8s.io\n  kind: ClusterRole\n  name: coredns\nsubjects:\n- kind: ServiceAccount\n  name: coredns\n  namespace: kube-system\n---\napiVersion: apps/v1\nkind: Deployment\nmetadata:\n  name: coredns\n  namespace: kube-system\n  labels:\n    k8s-app: kube-dns\nspec:\n  replicas: 2\n  selector:\n    matchLabels:\n      k8s-app: kube-dns\n  template:\n    metadata:\n      labels:\n        k8s-app: kube-dns\n    spec:\n      serviceAccountName: coredns\n      containers:\n      - name: coredns\n        image: coredns/coredns:"
  ++ config.corednsVersion ++
  "\n        args:\n        - -conf\n        - /etc/coredns/Corefile\n        volumeMounts:\n        - name: config-volume\n          mountPath: /etc/coredns\n      volumes:\n      - name: config-volume\n        configMap:\n          name: coredns\n---\napiVersion: v1\nkind: ConfigMap\nmetadata:\n  name: coredns\n  namespace: kube-system\ndata:\n  Corefile: |\n    .:53 \x7b\n        errors\n        health\n        kubernetes cluster.local in-addr.arpa ip6.arpa \x7b\n          pods insecure\n          fallthrough in-addr.arpa ip6.arpa\n        \x7d\n        prometheus :9153\n        forward . /etc/resolv.conf\n        cache 30\n        loop\n        reload\n        loadbalance\n    \x7d\n---\napiVersion: v1\nkind: Service\nmetadata:\n  name: kube-dns\n  namespace: kube-system\n  labels:\n    k8s-app: kube-dns\n  annotations:\n    prometheus.io/port: \"9153\"\n    prometheus.io/scrape: \"true\"\nspec:\n  clusterIP: "
  ++ config.clusterDNS ++
  "\n  ports:\n  - name: dns\n    port: 53\n    protocol: UDP\n  - name: dns-tcp\n    port: 53\n    protocol: TCP\n  - name: metrics\n    port: 9153\n    protocol: TCP\n  selector:\n    k8s-app: kube-dns\n"

/-- `generateTestApplicationManifest` (helpers.go). -/
def generateTestApplicationManifest : String :=
  "apiVersion: apps/v1\nkind: Deployment\nmetadata:\n  name: test-deployment\nspec:\n  replicas: 2\n  selector:\n    matchLabels:\n      app: test-app\n  template:\n    metadata:\n      labels:\n        app: test-app\n    spec:\n      containers:\n      - name: nginx\n        image: nginx:1.14.2\n        ports:\n        - containerPort: 80\n---\napiVersion: v1\nkind: Service\nmetadata:\n  name: test-service\nspec:\n  ports:\n  - port: 80\n    targetPort: 80\n    protocol: TCP\n  selector:\n    app: test-app\n"

/-!
## Base64 (`encoding/base64` `StdEncoding`, used by the encryption config)
-/

/-- The standard base64 alphabet. -/
def base64Alphabet : List Char :=
  "ABCDEFGHIJKLMNOPQRSTUVWXYZabcdefghijklmnopqrstuvwxyz0123456789+/".data

/-- The alphabet character for a 6-bit value. -/
def b64Char (n : Nat) : Char := base64Alphabet.getD (n % 64) 'A'

/-- `base64.StdEncoding.EncodeToString` over byte values. -/
def encodeBase64 : List Nat → List Char
  | b1 :: b2 :: b3 :: rest =>
    b64Char (b1 / 4) :: b64Char (b1 % 4 * 16 + b2 / 16) ::
    b64Char (b2 % 16 * 4 + b3 / 64) :: b64Char (b3 % 64) :: encodeBase64 rest
  | [b1, b2] =>
    [b64Char (b1 / 4), b64Char (b1 % 4 * 16 + b2 / 16), b64Char (b2 % 16 * 4), '=']
  | [b1] => [b64Char (b1 / 4), b64Char (b1 % 4 * 16), '=', '=']
  | [] => []

/-- The 6-bit value of an alphabet character. -/
def b64Val (c : Char) : Option Nat :=
  (List.range 64).findSome? fun n =>
    if base64Alphabet.getD n 'A' = c then some n else none

/-- Standard base64 decoding (with padding). -/
def decodeBase64 : List Char → Option (List Nat)
  | [] => some []
  | c1 :: c2 :: c3 :: c4 :: rest =>
    match b64Val c1, b64Val c2 with
    | some v1, some v2 =>
      if c3 = '=' then
        if c4 = '=' ∧ rest = [] then some [v1 * 4 + v2 / 16] else none
      else
        match b64Val c3 with
        | some v3 =>
          if c4 = '=' then
            if rest = [] then some [v1 * 4 + v2 / 16, v2 % 16 * 16 + v3 / 4] else none
          else
            match b64Val c4 with
            | some v4 =>
              match decodeBase64 rest with
              | some bs =>
                some ((v1 * 4 + v2 / 16) :: (v2 % 16 * 16 + v3 / 4) :: (v3 % 4 * 64 + v4) :: bs)
              | none => none
            | none => none
        | none => none
    | _, _ => none
  | _ => none

/-!
## Line structure of rendered text
-/

/-- Split a character list at newlines (always returns at least one,
possibly empty, line). -/
def splitLines : List Char → List (List Char)
  | [] => [[]]
  | c :: rest =>
    let r := splitLines rest
    if c = '\n' then [] :: r else (c :: r.headD []) :: r.tail

/-!
## PKI phase (`generateCertificates`, setup.go lines 467-506)
-/

/-- `CertificateManager.GenerateCA`. -/
def certCAPrim (env : Env) (workDir : String) (s : St) : St × Bool :=
  let ok := env.certOk s.idx
  ({ s with idx := s.idx + 1, trace := s.trace ++ [Action.generateCA workDir ok] }, ok)

/-- `CertificateManager.GenerateClientCert`. -/
def certClientPrim (env : Env) (workDir name : String) (s : St) : St × Bool :=
  let ok := env.certOk s.idx
  ({ s with idx := s.idx + 1,
            trace := s.trace ++ [Action.generateClientCert workDir name ok] }, ok)

/-- `CertificateManager.GenerateServerCert`. -/
def certServerPrim (env : Env) (workDir name : String) (hosts : List String) (s : St) :
    St × Bool :=
  let ok := env.certOk s.idx
  ({ s with idx := s.idx + 1,
            trace := s.trace ++ [Action.generateServerCert workDir name hosts ok] }, ok)

/-- The `clientCerts` slice of `generateCertificates`: five fixed names
followed by one name per worker, in worker order. -/
def clientCertNames (config : ClusterConfig) : List String :=
  ["admin", "kube-controller-manager", "kube-proxy", "kube-scheduler", "service-account"]
    ++ config.workers.map Node.name

/-- The `serverHosts` slice of `generateCertificates`: the SAN host list of
the `kubernetes` server certificate. -/
def serverHosts (config : ClusterConfig) : List String :=
  [ "127.0.0.1", "10.32.0.1", config.controller.ipAddress, config.controller.hostname,
    "kubernetes", "kubernetes.default", "kubernetes.default.svc",
    "kubernetes.default.svc.cluster", "kubernetes.default.svc.cluster.local" ]

/-- The `for _, name := range clientCerts` loop of `generateCertificates`. -/
def genClientCertsLoop (env : Env) (workDir : String) :
    List String → St → St × Except Err Unit
  | [], s => (s, Except.ok ())
  | n :: rest, s =>
    match certClientPrim env workDir n s with
    | (s1, false) =>
      (s1, Except.error (Err.msg ("failed to generate client certificate for " ++ n)))
    | (s1, true) => genClientCertsLoop env workDir rest s1

/-- `ClusterManager.generateCertificates`. -/
def generateCertificates (env : Env) (config : ClusterConfig) (workDir : String)
    (s : St) : St × Except Err Unit :=
  match certCAPrim env workDir s with
  | (s1, false) => (s1, Except.error (Err.msg "failed to generate CA"))
  | (s1, true) =>
    andThen (genClientCertsLoop env workDir (clientCertNames config) s1) fun s2 =>
      match certServerPrim env workDir "kubernetes" (serverHosts config) s2 with
      | (s3, false) => (s3, Except.error (Err.msg "failed to generate server certificate"))
      | (s3, true) => (s3, Except.ok ())

/-!
## Config phase (`createConfigurations`, setup.go lines 509-535, and the
renderers it drives, helpers.go lines 14-66)
-/

/-- The 32 random bytes drawn by `generateEncryptionConfig`
(`rand.Read` into a 32-byte buffer; `% 256` is the byte width). -/
def encKey (env : Env) (idx : Nat) : List Nat :=
  List.ofFn fun i : Fin 32 => env.randByte idx i.val % 256

/-- The encryption-config template up to the interpolated secret. -/
def encPrefix : String :=
  "kind: EncryptionConfig\napiVersion: v1\nresources:\n  - resources:\n      - secrets\n    providers:\n      - aescbc:\n          keys:\n            - name: key1\n              secret: "

/-- The encryption-config template after the interpolated secret. -/
def encSuffix : String := "\n      - identity: \x7b\x7d\n"

/-- The rendered encryption configuration for a given key. -/
def encryptionConfigContent (key : List Nat) : String :=
  encPrefix ++ String.mk (encodeBase64 key) ++ encSuffix

/-- `ClusterManager.generateEncryptionConfig` (helpers.go lines 14-35).
The error on a failed write stands for the raw `os.WriteFile` error. -/
def generateEncryptionConfig (env : Env) (workDir : String) (s : St) :
    St × Except Err Unit :=
  if env.randOk s.idx = false then
    ({ s with idx := s.idx + 1 }, Except.error (Err.msg "failed to generate encryption key"))
  else
    let key := encKey env s.idx
    match writeFilePrim env (workDir ++ "/encryption-config.yaml")
        (encryptionConfigContent key) { s with idx := s.idx + 1 } with
    | (s1, true) => (s1, Except.ok ())
    | (s1, false) =>
      (s1, Except.error (Err.msg ("failed to write " ++ workDir ++ "/encryption-config.yaml")))

/-- The kubeconfig template of `generateKubeconfig` (helpers.go lines
44-63), with the interpolations of the source. -/
def kubeconfigContent (workDir clusterName name clusterIP : String) : String :=
  "apiVersion: v1\nclusters:\n- cluster:\n    certificate-authority: " ++ workDir ++
  "/ca.pem\n    server: https://" ++ clusterIP ++
  ":6443\n  name: " ++ clusterName ++
  "\ncontexts:\n- context:\n    cluster: " ++ clusterName ++
  "\n    user: " ++ name ++
  "\n  name: " ++ name ++
  "\ncurrent-context: " ++ name ++
  "\nkind: Config\npreferences: \x7b\x7d\nusers:\n- name: " ++ name ++
  "\n  user:\n    client-certificate: " ++ workDir ++ "/" ++ name ++
  ".pem\n    client-key: " ++ workDir ++ "/" ++ name ++ "-key.pem\n"

/-- `ClusterManager.generateKubeconfig` (helpers.go lines 38-66): the
cluster endpoint is the `ip` argument when non-empty, else the
controller's IP address. -/
def generateKubeconfig (env : Env) (config : ClusterConfig) (workDir name ip : String)
    (s : St) : St × Except Err Unit :=
  let clusterIP := if ip ≠ "" then ip else config.controller.ipAddress
  match writeFilePrim env (workDir ++ "/" ++ name ++ ".kubeconfig")
      (kubeconfigContent workDir config.clusterName name clusterIP) s with
  | (s1, true) => (s1, Except.ok ())
  | (s1, false) =>
    (s1, Except.error
      (Err.msg ("failed to write " ++ workDir ++ "/" ++ name ++ ".kubeconfig")))

/-- The `for _, worker := range cm.config.Workers` loop of
`createConfigurations`. -/
def workerKubeconfigsLoop (env : Env) (config : ClusterConfig) (workDir : String) :
    List Node → St → St × Except Err Unit
  | [], s => (s, Except.ok ())
  | w :: rest, s =>
    match generateKubeconfig env config workDir w.name w.ipAddress s with
    | (s1, Except.error e) =>
      (s1, Except.error (Err.wrap ("failed to generate kubeconfig for " ++ w.name) e))
    | (s1, Except.ok _) => workerKubeconfigsLoop env config workDir rest s1

/-- The control-plane principal loop of `createConfigurations`:
`kube-controller-manager`, `kube-scheduler` and `admin` get the
controller's IP; the others (`kube-proxy`) get the empty string. -/
def principalKubeconfigsLoop (env : Env) (config : ClusterConfig) (workDir : String) :
    List String → St → St × Except Err Unit
  | [], s => (s, Except.ok ())
  | name :: rest, s =>
    let ip :=
      if name = "kube-controller-manager" ∨ name = "kube-scheduler" ∨ name = "admin"
      then config.controller.ipAddress else ""
    match generateKubeconfig env config workDir name ip s with
    | (s1, Except.error e) =>
      (s1, Except.error (Err.wrap ("failed to generate kubeconfig for " ++ name) e))
    | (s1, Except.ok _) => principalKubeconfigsLoop env config workDir rest s1

/-- `ClusterManager.createConfigurations` (setup.go lines 509-535). -/
def createConfigurations (env : Env) (config : ClusterConfig) (workDir : String)
    (s : St) : St × Except Err Unit :=
  match generateEncryptionConfig env workDir s with
  | (s1, Except.error e) =>
    (s1, Except.error (Err.wrap "failed to create encryption config" e))
  | (s1, Except.ok _) =>
    andThen (workerKubeconfigsLoop env config workDir config.workers s1) fun s2 =>
      principalKubeconfigsLoop env config workDir
        ["kube-proxy", "kube-controller-manager", "kube-scheduler", "admin"] s2

/-!
## Teardown (`DestroyCluster`, manager.go)
-/

/-- The seven per-node cleanup commands of `DestroyCluster` (manager.go
lines 108-116), verbatim. -/
def destroyCommands : List String :=
  [ "sudo systemctl stop etcd kube-apiserver kube-controller-manager kube-scheduler containerd kubelet kube-proxy || true",
    "sudo systemctl disable etcd kube-apiserver kube-controller-manager kube-scheduler containerd kubelet kube-proxy || true",
    "sudo rm -rf /etc/etcd /var/lib/etcd /etc/kubernetes /var/lib/kubernetes /var/lib/kubelet /var/lib/kube-proxy /etc/cni /opt/cni /var/run/kubernetes",
    "sudo rm -f /usr/local/bin/etcd* /usr/local/bin/kube* /usr/local/bin/runc /bin/containerd*",
    "sudo rm -f /etc/systemd/system/etcd.service /etc/systemd/system/kube*.service /etc/systemd/system/containerd.service",
    "sudo systemctl daemon-reload",
    "sudo systemctl reset-failed" ]

/-- `append([]Node{cm.config.Controller}, cm.config.Workers...)`. -/
def nodesOf (config : ClusterConfig) : List Node :=
  config.controller :: config.workers

/-- The per-node loop of `DestroyCluster`. -/
def destroyNodesLoop (env : Env) : List Node → St → St × Except Err Unit
  | [], s => (s, Except.ok ())
  | n :: rest, s =>
    andThen
      (runCmds env n.ipAddress
        (fun c => Err.msg ("failed to execute cleanup command '" ++ c ++ "' on " ++ n.name))
        destroyCommands s)
      (destroyNodesLoop env rest)

/-- `ClusterManager.DestroyCluster` (manager.go lines 102-130). -/
def destroyCluster (env : Env) (config : ClusterConfig) (s : St) :
    St × Except Err Unit :=
  andThen (destroyNodesLoop env (nodesOf config) s) fun s1 =>
    match removeDirPrim env config.workDir s1 with
    | (s2, true) => (s2, Except.ok ())
    | (s2, false) =>
      (s2, Except.error (Err.msg ("failed to remove work directory " ++ config.workDir)))

/-!
## The health gate (`waitForService`, setup.go lines 871-883)
-/

/-- `fmt.Sprintf("sudo systemctl is-active %s", serviceName)`. -/
def probeCmd (serviceName : String) : String :=
  "sudo systemctl is-active " ++ serviceName

/-- The polling loop of `waitForService`: while `time.Now().Before(deadline)`,
probe with `systemctl is-active`; return nil when the trimmed output is
`active`; otherwise (including when `ExecuteCommand` itself errors) sleep
five seconds and poll again.  Commands are modelled as instantaneous; only
`time.Sleep` advances the clock. -/
def waitLoop (env : Env) (host serviceName : String) (timeoutSecs deadline : Nat)
    (s : St) : St × Except Err Unit :=
  if h : s.time < deadline then
    match (execCmd env host (probeCmd serviceName) s).2 with
    | some out =>
      if out.trim = "active" then
        ((execCmd env host (probeCmd serviceName) s).1, Except.ok ())
      else
        waitLoop env host serviceName timeoutSecs deadline
          (sleepFor 5 (execCmd env host (probeCmd serviceName) s).1)
    | none =>
      waitLoop env host serviceName timeoutSecs deadline
        (sleepFor 5 (execCmd env host (probeCmd serviceName) s).1)
  else (s, Except.error (Err.unhealthy serviceName timeoutSecs))
termination_by deadline - s.time
decreasing_by
  all_goals
    simp [execCmd, sleepFor]
    omega

/-- `ClusterManager.waitForService`: `deadline := time.Now().Add(timeout)`,
then the loop above. -/
def waitForService (env : Env) (host serviceName : String) (timeoutSecs : Nat)
    (s : St) : St × Except Err Unit :=
  waitLoop env host serviceName timeoutSecs (s.time + timeoutSecs) s

/-!
## Control-plane phase (`setupControlPlane`, setup.go lines 538-659)
-/

/-- The `etcdCommands` slice. -/
def etcdCommands (config : ClusterConfig) : List String :=
  [ "sudo mkdir -p /etc/etcd /var/lib/etcd",
    "sudo groupadd -f etcd",
    "sudo useradd -g etcd -d /var/lib/etcd -s /sbin/nologin -c 'etcd user' etcd || true",
    "sudo chown -R etcd:etcd /var/lib/etcd",
    "wget -q --show-progress --https-only --timestamping 'https://github.com/etcd-io/etcd/releases/download/"
      ++ config.etcdVersion ++ "/etcd-" ++ config.etcdVersion ++ "-linux-amd64.tar.gz'",
    "tar -xzf etcd-" ++ config.etcdVersion ++ "-linux-amd64.tar.gz",
    "sudo mv etcd-" ++ config.etcdVersion ++ "-linux-amd64/etcd* /usr/local/bin/",
    "rm -f etcd-" ++ config.etcdVersion ++ "-linux-amd64.tar.gz" ]

/-- The `certFiles` slice copied to `/etc/etcd/`. -/
def etcdCertFiles : List String := ["ca.pem", "kubernetes-key.pem", "kubernetes.pem"]

/-- The per-file copy-then-chown loop for the etcd certificates. -/
def copyEtcdCertsLoop (env : Env) (config : ClusterConfig) (workDir : String) :
    List String → St → St × Except Err Unit
  | [], s => (s, Except.ok ())
  | file :: rest, s =>
    match copyFilePrim env config.controller.ipAddress (workDir ++ "/" ++ file)
        ("/etc/etcd/" ++ file) s with
    | (s1, false) =>
      (s1, Except.error (Err.msg ("failed to copy " ++ file ++ " to controller")))
    | (s1, true) =>
      match execCmd env config.controller.ipAddress
          ("sudo chown etcd:etcd /etc/etcd/" ++ file) s1 with
      | (s2, none) =>
        (s2, Except.error (Err.msg ("failed to set ownership for /etc/etcd/" ++ file)))
      | (s2, some _) => copyEtcdCertsLoop env config workDir rest s2

/-- Upload of the rendered `etcd.service`. -/
def uploadEtcdService (env : Env) (config : ClusterConfig) (s : St) :
    St × Except Err Unit :=
  match copyContentPrim env config.controller.ipAddress
      (generateEtcdService config.controller) "/etc/systemd/system/etcd.service" s with
  | (s1, false) => (s1, Except.error (Err.msg "failed to upload etcd service"))
  | (s1, true) => (s1, Except.ok ())

/-- The `k8sCommands` slice. -/
def k8sControllerCommands (config : ClusterConfig) : List String :=
  [ "sudo mkdir -p /etc/kubernetes/config /var/lib/kubernetes",
    "wget -q --show-progress --https-only --timestamping 'https://storage.googleapis.com/kubernetes-release/release/"
      ++ config.kubernetesVersion ++ "/bin/linux/amd64/kube-apiserver' 'https://storage.googleapis.com/kubernetes-release/release/"
      ++ config.kubernetesVersion ++ "/bin/linux/amd64/kube-controller-manager' 'https://storage.googleapis.com/kubernetes-release/release/"
      ++ config.kubernetesVersion ++ "/bin/linux/amd64/kube-scheduler' 'https://storage.googleapis.com/kubernetes-release/release/"
      ++ config.kubernetesVersion ++ "/bin/linux/amd64/kubectl'",
    "chmod +x kube-apiserver kube-controller-manager kube-scheduler kubectl",
    "sudo mv kube-apiserver kube-controller-manager kube-scheduler kubectl /usr/local/bin/" ]

/-- The `additionalFiles` slice copied to `/var/lib/kubernetes/`. -/
def controllerFiles : List String :=
  [ "ca-key.pem", "service-account-key.pem", "service-account.pem",
    "encryption-config.yaml", "kube-controller-manager.kubeconfig",
    "kube-scheduler.kubeconfig" ]

/-- The per-file copy loop for the additional Kubernetes files. -/
def copyK8sFilesLoop (env : Env) (config : ClusterConfig) (workDir : String) :
    List String → St → St × Except Err Unit
  | [], s => (s, Except.ok ())
  | file :: rest, s =>
    match copyFilePrim env config.controller.ipAddress (workDir ++ "/" ++ file)
        ("/var/lib/kubernetes/" ++ file) s with
    | (s1, false) =>
      (s1, Except.error (Err.msg ("failed to copy " ++ file ++ " to controller")))
    | (s1, true) => copyK8sFilesLoop env config workDir rest s1

/-- Upload of the three control-plane unit files (the Go `services` map,
embedded in source-literal order; no theorem depends on the order). -/
def uploadControlPlaneServices (env : Env) (config : ClusterConfig) (s : St) :
    St × Except Err Unit :=
  match copyContentPrim env config.controller.ipAddress (generateAPIServerService config)
      "/etc/systemd/system/kube-apiserver.service" s with
  | (s1, false) => (s1, Except.error (Err.msg "failed to upload kube-apiserver service"))
  | (s1, true) =>
    match copyContentPrim env config.controller.ipAddress
        (generateControllerManagerService config)
        "/etc/systemd/system/kube-controller-manager.service" s1 with
    | (s2, false) =>
      (s2, Except.error (Err.msg "failed to upload kube-controller-manager service"))
    | (s2, true) =>
      match copyContentPrim env config.controller.ipAddress generateSchedulerService
          "/etc/systemd/system/kube-scheduler.service" s2 with
      | (s3, false) =>
        (s3, Except.error (Err.msg "failed to upload kube-scheduler service"))
      | (s3, true) => (s3, Except.ok ())

/-- The combined daemon-reload/enable/start command for etcd. -/
def startEtcdCmd : String :=
  "sudo systemctl daemon-reload && sudo systemctl enable etcd && sudo systemctl start etcd"

/-- `fmt.Sprintf("sudo systemctl enable %s && sudo systemctl start %s", ...)`;
the literal kube-apiserver start command of setup.go line 636 equals
`startServiceCmd "kube-apiserver"`. -/
def startServiceCmd (service : String) : String :=
  "sudo systemctl enable " ++ service ++ " && sudo systemctl start " ++ service

/-- Start etcd (setup.go lines 624-627). -/
def startEtcd (env : Env) (config : ClusterConfig) (s : St) : St × Except Err Unit :=
  match execCmd env config.controller.ipAddress startEtcdCmd s with
  | (s1, none) => (s1, Except.error (Err.msg "failed to start etcd"))
  | (s1, some _) => (s1, Except.ok ())

/-- Start the API server (setup.go lines 635-638). -/
def startApiServer (env : Env) (config : ClusterConfig) (s : St) : St × Except Err Unit :=
  match execCmd env config.controller.ipAddress (startServiceCmd "kube-apiserver") s with
  | (s1, none) => (s1, Except.error (Err.msg "failed to start kube-apiserver"))
  | (s1, some _) => (s1, Except.ok ())

/-- A health gate: `waitForService` with its error wrapped by the caller's
context string. -/
def gate (env : Env) (host unit : String) (timeoutSecs : Nat) (wrapCtx : String)
    (s : St) : St × Except Err Unit :=
  match waitForService env host unit timeoutSecs s with
  | (s1, Except.error e) => (s1, Except.error (Err.wrap wrapCtx e))
  | (s1, Except.ok _) => (s1, Except.ok ())

/-- The final `for _, service := range last_services` loop: start each of
kube-controller-manager and kube-scheduler and gate on its health. -/
def lastServicesLoop (env : Env) (config : ClusterConfig) :
    List String → St → St × Except Err Unit
  | [], s => (s, Except.ok ())
  | service :: rest, s =>
    match execCmd env config.controller.ipAddress (startServiceCmd service) s with
    | (s1, none) => (s1, Except.error (Err.msg ("failed to start " ++ service)))
    | (s1, some _) =>
      andThen (gate env config.controller.ipAddress service 30
        (service ++ " failed to become healthy") s1)
        (lastServicesLoop env config rest)

/-- Everything `setupControlPlane` does before the etcd health gate:
etcd setup commands, certificate copies, unit uploads, binary downloads
and the `systemctl start etcd`. -/
def controlPlanePrep (env : Env) (config : ClusterConfig) (workDir : String) (s : St) :
    St × Except Err Unit :=
  andThen (runCmds env config.controller.ipAddress
      (fun c => Err.msg ("failed to execute etcd setup command '" ++ c ++ "' on controller"))
      (etcdCommands config) s) fun s1 =>
  andThen (copyEtcdCertsLoop env config workDir etcdCertFiles s1) fun s2 =>
  andThen (uploadEtcdService env config s2) fun s3 =>
  andThen (runCmds env config.controller.ipAddress
      (fun c => Err.msg ("failed to execute kubernetes setup command '" ++ c ++ "' on controller"))
      (k8sControllerCommands config) s3) fun s4 =>
  andThen (copyK8sFilesLoop env config workDir controllerFiles s4) fun s5 =>
  andThen (uploadControlPlaneServices env config s5) fun s6 =>
  startEtcd env config s6

/-- `ClusterManager.setupControlPlane`. -/
def setupControlPlane (env : Env) (config : ClusterConfig) (workDir : String) (s : St) :
    St × Except Err Unit :=
  andThen (controlPlanePrep env config workDir s) fun s7 =>
  andThen (gate env config.controller.ipAddress "etcd" 30
      "etcd failed to become healthy" s7) fun s8 =>
  andThen (startApiServer env config s8) fun s9 =>
  andThen (gate env config.controller.ipAddress "kube-apiserver" 60
      "kube-apiserver failed to become healthy" s9) fun s10 =>
  lastServicesLoop env config ["kube-controller-manager", "kube-scheduler"] s10

/-!
## Worker phase (`setupSingleWorkerNode` / `setupWorkerNodes`,
setup.go lines 662-793)
-/

/-- The `depCommands` slice. -/
def workerDepCommands : List String :=
  [ "sudo apt-get update",
    "sudo apt-get -y install socat conntrack ipset",
    "sudo mkdir -p /etc/cni/net.d /opt/cni/bin /var/lib/kubelet /var/lib/kube-proxy /var/lib/kubernetes /var/run/kubernetes" ]

/-- The `cniCommands` slice. -/
def cniCommands (config : ClusterConfig) : List String :=
  [ "wget -q --show-progress --https-only --timestamping 'https://github.com/containernetworking/plugins/releases/download/"
      ++ config.cniVersion ++ "/cni-plugins-linux-amd64-" ++ config.cniVersion ++ ".tgz'",
    "sudo tar -xzf cni-plugins-linux-amd64-" ++ config.cniVersion ++ ".tgz -C /opt/cni/bin/",
    "rm -f cni-plugins-linux-amd64-" ++ config.cniVersion ++ ".tgz" ]

/-- The `containerdCommands` slice. -/
def containerdCommands (config : ClusterConfig) : List String :=
  [ "wget -q --show-progress --https-only --timestamping 'https://github.com/containerd/containerd/releases/download/"
      ++ config.containerdVersion ++ "/containerd-" ++ config.containerdVersion ++ "-linux-amd64.tar.gz'",
    "wget -q --show-progress --https-only --timestamping 'https://github.com/opencontainers/runc/releases/download/v1.1.7/runc.amd64'",
    "sudo tar -xzf containerd-" ++ config.containerdVersion ++ "-linux-amd64.tar.gz -C /",
    "sudo mv runc.amd64 runc",
    "chmod +x runc",
    "sudo mv runc /usr/local/bin/",
    "rm -f containerd-" ++ config.containerdVersion ++ "-linux-amd64.tar.gz" ]

/-- The `k8sWorkerCommands` slice. -/
def k8sWorkerCommands (config : ClusterConfig) : List String :=
  [ "wget -q --show-progress --https-only --timestamping 'https://storage.googleapis.com/kubernetes-release/release/"
      ++ config.kubernetesVersion ++ "/bin/linux/amd64/kubectl' 'https://storage.googleapis.com/kubernetes-release/release/"
      ++ config.kubernetesVersion ++ "/bin/linux/amd64/kube-proxy' 'https://storage.googleapis.com/kubernetes-release/release/"
      ++ config.kubernetesVersion ++ "/bin/linux/amd64/kubelet'",
    "chmod +x kubectl kube-proxy kubelet",
    "sudo mv kubectl kube-proxy kubelet /usr/local/bin/" ]

/-- The `workerFiles` slice. -/
def workerFiles (worker : Node) : List String :=
  [ "ca.pem", worker.name ++ "-key.pem", worker.name ++ ".pem",
    worker.name ++ ".kubeconfig", "kube-proxy.kubeconfig" ]

/-- The per-file copy loop of the worker flow (`kube-proxy.kubeconfig`
goes to `/var/lib/kube-proxy/`, everything else to `/var/lib/kubelet/`). -/
def copyWorkerFilesLoop (env : Env) (workDir : String) (worker : Node) :
    List String → St → St × Except Err Unit
  | [], s => (s, Except.ok ())
  | file :: rest, s =>
    let remotePath :=
      if file = "kube-proxy.kubeconfig" then "/var/lib/kube-proxy/" ++ file
      else "/var/lib/kubelet/" ++ file
    match copyFilePrim env worker.ipAddress (workDir ++ "/" ++ file) remotePath s with
    | (s1, false) =>
      (s1, Except.error (Err.msg ("failed to copy " ++ file ++ " to " ++ worker.name)))
    | (s1, true) => copyWorkerFilesLoop env workDir worker rest s1

/-- Upload of the five worker configuration files (the Go `configs` map,
embedded in source-literal order) followed by the three worker unit files
(the Go `services` map, likewise); no theorem depends on either order. -/
def uploadWorkerConfigs (env : Env) (config : ClusterConfig) (worker : Node) (s : St) :
    St × Except Err Unit :=
  match copyContentPrim env worker.ipAddress generateContainerdConfig
      "/etc/containerd/config.toml" s with
  | (s1, false) =>
    (s1, Except.error (Err.msg ("failed to upload config /etc/containerd/config.toml to " ++ worker.name)))
  | (s1, true) =>
    match copyContentPrim env worker.ipAddress (generateBridgeNetworkConfig worker.podCIDR)
        "/etc/cni/net.d/10-bridge.conf" s1 with
    | (s2, false) =>
      (s2, Except.error (Err.msg ("failed to upload config /etc/cni/net.d/10-bridge.conf to " ++ worker.name)))
    | (s2, true) =>
      match copyContentPrim env worker.ipAddress generateLoopbackNetworkConfig
          "/etc/cni/net.d/99-loopback.conf" s2 with
      | (s3, false) =>
        (s3, Except.error (Err.msg ("failed to upload config /etc/cni/net.d/99-loopback.conf to " ++ worker.name)))
      | (s3, true) =>
        match copyContentPrim env worker.ipAddress (generateKubeletConfig config worker)
            "/var/lib/kubelet/kubelet-config.yaml" s3 with
        | (s4, false) =>
          (s4, Except.error (Err.msg ("failed to upload config /var/lib/kubelet/kubelet-config.yaml to " ++ worker.name)))
        | (s4, true) =>
          match copyContentPrim env worker.ipAddress (generateKubeProxyConfig config)
              "/var/lib/kube-proxy/kube-proxy-config.yaml" s4 with
          | (s5, false) =>
            (s5, Except.error (Err.msg ("failed to upload config /var/lib/kube-proxy/kube-proxy-config.yaml to " ++ worker.name)))
          | (s5, true) =>
            match copyContentPrim env worker.ipAddress generateContainerdService
                "/etc/systemd/system/containerd.service" s5 with
            | (s6, false) =>
              (s6, Except.error (Err.msg ("failed to upload containerd service to " ++ worker.name)))
            | (s6, true) =>
              match copyContentPrim env worker.ipAddress (generateKubeletService worker)
                  "/etc/systemd/system/kubelet.service" s6 with
              | (s7, false) =>
                (s7, Except.error (Err.msg ("failed to upload kubelet service to " ++ worker.name)))
              | (s7, true) =>
                match copyContentPrim env worker.ipAddress generateKubeProxyService
                    "/etc/systemd/system/kube-proxy.service" s7 with
                | (s8, false) =>
                  (s8, Except.error (Err.msg ("failed to upload kube-proxy service to " ++ worker.name)))
                | (s8, true) => (s8, Except.ok ())

/-- The `workerStartCommands` slice. -/
def workerStartCommands : List String :=
  [ "sudo systemctl daemon-reload",
    "sudo systemctl enable containerd kubelet kube-proxy",
    "sudo systemctl start containerd kubelet kube-proxy" ]

/-- `ClusterManager.setupSingleWorkerNode`. -/
def setupSingleWorkerNode (env : Env) (config : ClusterConfig) (workDir : String)
    (worker : Node) (s : St) : St × Except Err Unit :=
  andThen (runCmds env worker.ipAddress
      (fun c => Err.msg ("failed to execute dependency command '" ++ c ++ "' on " ++ worker.name))
      workerDepCommands s) fun s1 =>
  andThen (runCmds env worker.ipAddress
      (fun c => Err.msg ("failed to execute CNI command '" ++ c ++ "' on " ++ worker.name))
      (cniCommands config) s1) fun s2 =>
  andThen (runCmds env worker.ipAddress
      (fun c => Err.msg ("failed to execute containerd command '" ++ c ++ "' on " ++ worker.name))
      (containerdCommands config) s2) fun s3 =>
  andThen (runCmds env worker.ipAddress
      (fun c => Err.msg ("failed to execute kubernetes command '" ++ c ++ "' on " ++ worker.name))
      (k8sWorkerCommands config) s3) fun s4 =>
  andThen (copyWorkerFilesLoop env workDir worker (workerFiles worker) s4) fun s5 =>
  andThen (uploadWorkerConfigs env config worker s5) fun s6 =>
  runCmds env worker.ipAddress
    (fun c => Err.msg ("failed to execute start command '" ++ c ++ "' on " ++ worker.name))
    workerStartCommands s6

/-- `ClusterManager.setupWorkerNodes`. -/
def setupWorkerNodes (env : Env) (config : ClusterConfig) (workDir : String) :
    List Node → St → St × Except Err Unit
  | [], s => (s, Except.ok ())
  | w :: rest, s =>
    match setupSingleWorkerNode env config workDir w s with
    | (s1, Except.error e) =>
      (s1, Except.error (Err.wrap ("failed to setup worker " ++ w.name) e))
    | (s1, Except.ok _) => setupWorkerNodes env config workDir rest s1

/-!
## Network phase (`setupNetworking`, setup.go lines 796-825)
-/

/-- `fmt.Sprintf("sudo ip route add %s via %s || true", ...)`. -/
def routeCmd (other : Node) : String :=
  "sudo ip route add " ++ other.podCIDR ++ " via " ++ other.ipAddress ++ " || true"

/-- `kubectl apply` of the uploaded CoreDNS manifest. -/
def applyCoreDNSCmd : String :=
  "kubectl apply -f /tmp/coredns.yaml --kubeconfig /var/lib/kubernetes/admin.kubeconfig"

/-- The inner `for _, otherWorker := range cm.config.Workers` loop: add a
route on `worker` for every other worker (skipping same-named entries). -/
def routeInnerLoop (env : Env) (worker : Node) :
    List Node → St → St × Except Err Unit
  | [], s => (s, Except.ok ())
  | other :: rest, s =>
    if worker.name ≠ other.name then
      match execCmd env worker.ipAddress (routeCmd other) s with
      | (s1, none) =>
        (s1, Except.error (Err.msg ("failed to add route on " ++ worker.name)))
      | (s1, some _) => routeInnerLoop env worker rest s1
    else routeInnerLoop env worker rest s

/-- The outer `for _, worker := range cm.config.Workers` loop. -/
def routeOuterLoop (env : Env) (allWorkers : List Node) :
    List Node → St → St × Except Err Unit
  | [], s => (s, Except.ok ())
  | w :: rest, s =>
    andThen (routeInnerLoop env w allWorkers s) (routeOuterLoop env allWorkers rest)

/-- `ClusterManager.setupNetworking`. -/
def setupNetworking (env : Env) (config : ClusterConfig) (s : St) :
    St × Except Err Unit :=
  andThen (routeOuterLoop env config.workers config.workers s) fun s1 =>
  match copyContentPrim env config.controller.ipAddress (generateCoreDNSManifest config)
      "/tmp/coredns.yaml" s1 with
  | (s2, false) => (s2, Except.error (Err.msg "failed to upload CoreDNS manifest"))
  | (s2, true) =>
    match execCmd env config.controller.ipAddress applyCoreDNSCmd s2 with
    | (s3, none) => (s3, Except.error (Err.msg "failed to apply CoreDNS manifest"))
    | (s3, some _) => (s3, Except.ok ())

/-!
## Validation phase (`validateCluster`, setup.go lines 828-867) and
prerequisites (`ValidateK8sPrerequisites`, manager.go lines 54-70)
-/

/-- `ClusterManager.validateCluster`. -/
def validateCluster (env : Env) (config : ClusterConfig) (s : St) :
    St × Except Err Unit :=
  match execCmd env config.controller.ipAddress
      "kubectl get nodes --kubeconfig /var/lib/kubernetes/admin.kubeconfig" s with
  | (s1, none) => (s1, Except.error (Err.msg "failed to get node status"))
  | (s1, some _) =>
    match execCmd env config.controller.ipAddress
        "kubectl get pods -n kube-system --kubeconfig /var/lib/kubernetes/admin.kubeconfig" s1 with
    | (s2, none) => (s2, Except.error (Err.msg "failed to get system pods"))
    | (s2, some _) =>
      match copyContentPrim env config.controller.ipAddress generateTestApplicationManifest
          "/tmp/test-app.yaml" s2 with
      | (s3, false) => (s3, Except.error (Err.msg "failed to upload test app"))
      | (s3, true) =>
        match execCmd env config.controller.ipAddress
            "kubectl apply -f /tmp/test-app.yaml --kubeconfig /var/lib/kubernetes/admin.kubeconfig" s3 with
        | (s4, none) => (s4, Except.error (Err.msg "failed to apply test app"))
        | (s4, some _) =>
          match execCmd env config.controller.ipAddress
              "kubectl get deployment test-deployment --kubeconfig /var/lib/kubernetes/admin.kubeconfig"
              (sleepFor 30 s4) with
          | (s5, none) => (s5, Except.error (Err.msg "failed to get test app status"))
          | (s5, some _) => (s5, Except.ok ())

/-- The per-node SSH probe loop of `ValidateK8sPrerequisites`. -/
def prereqLoop (env : Env) : List Node → St → St × Except Err Unit
  | [], s => (s, Except.ok ())
  | n :: rest, s =>
    match execCmd env n.ipAddress "echo 'SSH test'" s with
    | (s1, none) =>
      (s1, Except.error (Err.msg ("SSH connection to " ++ n.name ++ " failed")))
    | (s1, some _) => prereqLoop env rest s1

/-- `ClusterManager.ValidateK8sPrerequisites`. -/
def ValidateK8sPrerequisites (env : Env) (config : ClusterConfig) (s : St) :
    St × Except Err Unit :=
  andThen (prereqLoop env (nodesOf config) s) fun s1 =>
    match mkdirPrim env config.workDir s1 with
    | (s2, true) => (s2, Except.ok ())
    | (s2, false) =>
      (s2, Except.error (Err.msg ("failed to create work directory " ++ config.workDir)))

/-- `fmt.Errorf("<context>: %w", err)` applied to a whole stage. -/
def wrapStage (ctx : String) (x : St × Except Err Unit) : St × Except Err Unit :=
  match x with
  | (s, Except.error e) => (s, Except.error (Err.wrap ctx e))
  | (s, Except.ok _) => (s, Except.ok ())

/-- `ClusterManager.SetupCluster` (manager.go lines 12-51): the phase
pipeline with `totalSteps = 6` progress reports (Validate is reported
with index 6, like Network). -/
def SetupCluster (env : Env) (config : ClusterConfig) (s : St) :
    St × Except Err Unit :=
  andThen (wrapStage "prerequisites check failed"
      (ValidateK8sPrerequisites env config
        (reportPrim 1 6 "Checking Prerequisites" s))) fun s1 =>
  andThen (wrapStage "failed to generate certificates"
      (generateCertificates env config config.workDir
        (reportPrim 2 6 "Generating Certificates" s1))) fun s2 =>
  andThen (wrapStage "failed to create configurations"
      (createConfigurations env config config.workDir
        (reportPrim 3 6 "Creating Configurations" s2))) fun s3 =>
  andThen (wrapStage "failed to setup control plane"
      (setupControlPlane env config config.workDir
        (reportPrim 4 6 "Setting Up Control Plane" s3))) fun s4 =>
  andThen (wrapStage "failed to setup worker nodes"
      (setupWorkerNodes env config config.workDir config.workers
        (reportPrim 5 6 "Setting Up Worker Nodes" s4))) fun s5 =>
  andThen (wrapStage "failed to setup networking"
      (setupNetworking env config
        (reportPrim 6 6 "Setting Up Networking" s5))) fun s6 =>
  wrapStage "failed to validate cluster"
    (validateCluster env config (reportPrim 6 6 "Validating Cluster" s6))

/-!
## The SSH transport itself (sshconfig.go)

`RealSSHClient.ExecuteCommand`, `CopyFile` and `CopyContent` each receive
a `context.Context` but never consult it: no `ctx.Done()` select, no
`Session.Signal`, no deadline.  To state this, the transport is embedded
at the session level: the observable `SSHAction`s are the calls made to
the `golang.org/x/crypto/ssh` library together with a `signal`
constructor that a context-respecting implementation would emit and this
one never does.  The context is modelled by its only relevant observable,
whether it has been cancelled.
-/

/-- The calls a transport method makes against the SSH library (plus the
local file read of `CopyFile`).  `signal` stands for
`Session.Signal`, the call that would kill a remote process. -/
inductive SSHAction where
  | readKeyFile (path : String)
  | parseKey
  | dial (addr : String)
  | newSession
  | runCmd (command : String)
  | readLocal (path : String)
  | writeStdin (content : String)
  | signal (sig : String)
deriving DecidableEq, Repr

/-- Outcomes of the SSH library calls and of local reads. -/
structure SSHEnv where
  readKeyOk : Bool
  parseKeyOk : Bool
  dialOk : Bool
  sessionOk : Nat → Bool
  pipeOk : Nat → Bool
  runRes : Nat → String → Option String
  readLocalOk : Bool
  localContent : String → String

/-- A `context.Context`, reduced to its one observable the transport
could react to. -/
structure SSHCtx where
  cancelled : Bool

/-- `RealSSHClient` (sshconfig.go). -/
structure RealSSHClient where
  user : String
  keyPath : String

/-- `strings.Contains(host, ":")`: default the port to 22. -/
def hostWithPort (host : String) : String :=
  if host.contains ':' then host else host ++ ":22"

/-- `createSSHClient` (sshconfig.go lines 150-176): read and parse the
key, then dial; `true` means a client was obtained. -/
def createSSHClient (c : RealSSHClient) (env : SSHEnv) (host : String) :
    List SSHAction × Bool :=
  let addr := hostWithPort host
  if env.readKeyOk = false then ([SSHAction.readKeyFile c.keyPath], false)
  else if env.parseKeyOk = false then
    ([SSHAction.readKeyFile c.keyPath, SSHAction.parseKey], false)
  else ([SSHAction.readKeyFile c.keyPath, SSHAction.parseKey, SSHAction.dial addr],
        env.dialOk)

/-- `RealSSHClient.ExecuteCommand` (sshconfig.go lines 32-54).  The `ctx`
parameter is received and ignored, exactly as in the source. -/
def ExecuteCommandSSH (c : RealSSHClient) (env : SSHEnv) (ctx : SSHCtx)
    (host command : String) : List SSHAction × Except String String :=
  match createSSHClient c env host with
  | (acts, false) =>
    (acts, Except.error ("failed to create SSH client for " ++ host))
  | (acts, true) =>
    if env.sessionOk 0 = false then
      (acts ++ [SSHAction.newSession],
       Except.error ("failed to create SSH session for " ++ host))
    else
      match env.runRes 0 command with
      | none =>
        (acts ++ [SSHAction.newSession, SSHAction.runCmd command],
         Except.error ("failed to execute command '" ++ command ++ "' on " ++ host))
      | some out =>
        (acts ++ [SSHAction.newSession, SSHAction.runCmd command], Except.ok out)

/-- `RealSSHClient.CopyFile` (sshconfig.go lines 57-103): one session runs
`sudo tee`, a second session runs `sudo chmod 644`.  `ctx` is ignored. -/
def CopyFileSSH (c : RealSSHClient) (env : SSHEnv) (ctx : SSHCtx)
    (host localPath remotePath : String) : List SSHAction × Except String Unit :=
  match createSSHClient c env host with
  | (acts, false) =>
    (acts, Except.error ("failed to create SSH client for " ++ host))
  | (acts, true) =>
    if env.sessionOk 0 = false then
      (acts ++ [SSHAction.newSession],
       Except.error ("failed to create SSH session for " ++ host))
    else if env.readLocalOk = false then
      (acts ++ [SSHAction.newSession, SSHAction.readLocal localPath],
       Except.error ("failed to read local file " ++ localPath))
    else if env.pipeOk 0 = false then
      (acts ++ [SSHAction.newSession, SSHAction.readLocal localPath],
       Except.error ("failed to create stdin pipe for " ++ host))
    else
      match env.runRes 0 ("sudo tee " ++ remotePath ++ " > /dev/null") with
      | none =>
        (acts ++ [SSHAction.newSession, SSHAction.readLocal localPath,
                  SSHAction.writeStdin (env.localContent localPath),
                  SSHAction.runCmd ("sudo tee " ++ remotePath ++ " > /dev/null")],
         Except.error ("failed to copy file to " ++ remotePath ++ " on " ++ host))
      | some _ =>
        if env.sessionOk 1 = false then
          (acts ++ [SSHAction.newSession, SSHAction.readLocal localPath,
                    SSHAction.writeStdin (env.localContent localPath),
                    SSHAction.runCmd ("sudo tee " ++ remotePath ++ " > /dev/null"),
                    SSHAction.newSession],
           Except.error ("failed to create permission session for " ++ host))
        else
          match env.runRes 1 ("sudo chmod 644 " ++ remotePath) with
          | none =>
            (acts ++ [SSHAction.newSession, SSHAction.readLocal localPath,
                      SSHAction.writeStdin (env.localContent localPath),
                      SSHAction.runCmd ("sudo tee " ++ remotePath ++ " > /dev/null"),
                      SSHAction.newSession,
                      SSHAction.runCmd ("sudo chmod 644 " ++ remotePath)],
             Except.error ("failed to set permissions for " ++ remotePath ++ " on " ++ host))
          | some _ =>
            (acts ++ [SSHAction.newSession, SSHAction.readLocal localPath,
                      SSHAction.writeStdin (env.localContent localPath),
                      SSHAction.runCmd ("sudo tee " ++ remotePath ++ " > /dev/null"),
                      SSHAction.newSession,
                      SSHAction.runCmd ("sudo chmod 644 " ++ remotePath)],
             Except.ok ())

/-- `RealSSHClient.CopyContent` (sshconfig.go lines 106-147): as
`CopyFile` but with an in-memory source.  `ctx` is ignored. -/
def CopyContentSSH (c : RealSSHClient) (env : SSHEnv) (ctx : SSHCtx)
    (host content remotePath : String) : List SSHAction × Except String Unit :=
  match createSSHClient c env host with
  | (acts, false) =>
    (acts, Except.error ("failed to create SSH client for " ++ host))
  | (acts, true) =>
    if env.sessionOk 0 = false then
      (acts ++ [SSHAction.newSession],
       Except.error ("failed to create SSH session for " ++ host))
    else if env.pipeOk 0 = false then
      (acts ++ [SSHAction.newSession],
       Except.error ("failed to create stdin pipe for " ++ host))
    else
      match env.runRes 0 ("sudo tee " ++ remotePath ++ " > /dev/null") with
      | none =>
        (acts ++ [SSHAction.newSession, SSHAction.writeStdin content,
                  SSHAction.runCmd ("sudo tee " ++ remotePath ++ " > /dev/null")],
         Except.error ("failed to copy content to " ++ remotePath ++ " on " ++ host))
      | some _ =>
        if env.sessionOk 1 = false then
          (acts ++ [SSHAction.newSession, SSHAction.writeStdin content,
                    SSHAction.runCmd ("sudo tee " ++ remotePath ++ " > /dev/null"),
                    SSHAction.newSession],
           Except.error ("failed to create permission session for " ++ host))
        else
          match env.runRes 1 ("sudo chmod 644 " ++ remotePath) with
          | none =>
            (acts ++ [SSHAction.newSession, SSHAction.writeStdin content,
                      SSHAction.runCmd ("sudo tee " ++ remotePath ++ " > /dev/null"),
                      SSHAction.newSession,
                      SSHAction.runCmd ("sudo chmod 644 " ++ remotePath)],
             Except.error ("failed to set permissions for " ++ remotePath ++ " on " ++ host))
          | some _ =>
            (acts ++ [SSHAction.newSession, SSHAction.writeStdin content,
                      SSHAction.runCmd ("sudo tee " ++ remotePath ++ " > /dev/null"),
                      SSHAction.newSession,
                      SSHAction.runCmd ("sudo chmod 644 " ++ remotePath)],
             Except.ok ())

/-- `true` iff the action is a `Session.Signal` call. -/
def SSHAction.isSignal : SSHAction → Bool
  | SSHAction.signal _ => true
  | _ => false

/-!
## Infrastructure for the control-plane ordering theorems
-/

/-- `true` iff the action is one of the PKI operations. -/
def Action.isPki : Action → Bool
  | Action.generateCA _ _ => true
  | Action.generateClientCert _ _ _ => true
  | Action.generateServerCert _ _ _ _ => true
  | _ => false

/-- `true` iff the action executes exactly `cmd` on exactly `host`. -/
def isExecOf (host cmd : String) : Action → Bool
  | Action.exec h c _ => h = host ∧ c = cmd
  | _ => false

/-- `true` iff the action executes an `ip route add` command (under sudo)
on `host`. -/
def isIpRouteOn (host : String) : Action → Bool
  | Action.exec h c _ => h = host ∧ "sudo ip route add ".data.isPrefixOf c.data
  | _ => false

/-- The (host, command) key of an exec action. -/
def execKey : Action → String × String
  | Action.exec h c _ => (h, c)
  | _ => ("", "")

/-- `startServiceStep` is the start half of one `last_services` iteration;
`lastServicesLoop_cons` below re-expresses the loop with it. -/
def startServiceStep (env : Env) (config : ClusterConfig) (service : String) (s : St) :
    St × Except Err Unit :=
  match execCmd env config.controller.ipAddress (startServiceCmd service) s with
  | (s1, none) => (s1, Except.error (Err.msg ("failed to start " ++ service)))
  | (s1, some _) => (s1, Except.ok ())

/-- `a` is not an execution of the service-start command `tcmd` on the
controller host `ctrl`. -/
def NotStartOf (ctrl tcmd : String) (a : Action) : Prop :=
  ∀ r, a ≠ Action.exec ctrl tcmd r

/-- The control-plane phase up to (and including) the start of the API
server: everything before the apiserver health gate. -/
def controlPlaneToApiStart (env : Env) (config : ClusterConfig) (workDir : String) :
    St → St × Except Err Unit := fun s =>
  andThen (controlPlanePrep env config workDir s) fun s7 =>
  andThen (gate env config.controller.ipAddress "etcd" 30
      "etcd failed to become healthy" s7)
    (startApiServer env config)

/-- The control-plane phase up to (and including) the start of the
controller manager: everything before the controller-manager health gate. -/
def controlPlaneToKcmStart (env : Env) (config : ClusterConfig) (workDir : String) :
    St → St × Except Err Unit := fun s =>
  andThen (controlPlaneToApiStart env config workDir s) fun s9 =>
  andThen (gate env config.controller.ipAddress "kube-apiserver" 60
      "kube-apiserver failed to become healthy" s9)
    (startServiceStep env config "kube-controller-manager")

/-- The service-start command for `target` appears in the control-plane
trace only strictly after an `is-active prior` probe whose output trimmed
to `active`. -/
def StartsOnlyAfterActiveProbe (env : Env) (config : ClusterConfig)
    (workDir : String) (s : St) (target prior : String) : Prop :=
  ∀ (j : Nat) (r : Option String),
    (setupControlPlane env config workDir s).1.trace[j]? =
      some (Action.exec config.controller.ipAddress (startServiceCmd target) r) →
    ∃ i out, i < j ∧
      (setupControlPlane env config workDir s).1.trace[i]? =
        some (Action.exec config.controller.ipAddress (probeCmd prior) (some out)) ∧
      out.trim = "active"

/-- Each control-plane unit is started only after the previous unit's
health gate observed an `active` probe. -/
def HealthGateOrdering (env : Env) (config : ClusterConfig) (workDir : String)
    (s : St) : Prop :=
  StartsOnlyAfterActiveProbe env config workDir s "kube-apiserver" "etcd" ∧
  StartsOnlyAfterActiveProbe env config workDir s
    "kube-controller-manager" "kube-apiserver" ∧
  StartsOnlyAfterActiveProbe env config workDir s
    "kube-scheduler" "kube-controller-manager"

/-- The claimed behaviour of the polling loop: timing out exactly when the
deadline has passed, succeeding on a probe that trims to `active`,
sleeping five seconds and re-polling on any other probe outcome, and
erring only with the unhealthy-service error naming the unit. -/
def WaitForServicePolling (env : Env) : Prop :=
  (∀ (host unit : String) (t dl : Nat) (s : St), ¬ s.time < dl →
      waitLoop env host unit t dl s = (s, Except.error (Err.unhealthy unit t))) ∧
  (∀ (host unit : String) (t dl : Nat) (s : St) (out : String), s.time < dl →
      env.execRes s.idx host (probeCmd unit) = some out → out.trim = "active" →
      waitLoop env host unit t dl s =
        ((execCmd env host (probeCmd unit) s).1, Except.ok ())) ∧
  (∀ (host unit : String) (t dl : Nat) (s : St), s.time < dl →
      (env.execRes s.idx host (probeCmd unit) = none ∨
        ∃ out, env.execRes s.idx host (probeCmd unit) = some out ∧
          out.trim ≠ "active") →
      waitLoop env host unit t dl s =
        waitLoop env host unit t dl
          (sleepFor 5 (execCmd env host (probeCmd unit) s).1)) ∧
  (∀ (host unit : String) (t : Nat) (s : St) (e : Err),
      (waitForService env host unit t s).2 = Except.error e →
      e = Err.unhealthy unit t)

/-- The (host, command) keys of the routes added on `w` against the
worker list `others` (the inner loop of `setupNetworking`, which skips
same-named entries). -/
def keysOf (w : Node) (others : List Node) : List (String × String) :=
  (others.filter (fun o => w.name ≠ o.name)).map (fun o => (w.ipAddress, routeCmd o))

/-- The (host, command) keys of all routes added by `setupNetworking`. -/
def allRouteKeys (ws : List Node) : List (String × String) :=
  ws.flatMap (fun w => keysOf w ws)

/-- The claimed shape of the Network phase: one route-add per ordered
pair of name-distinct workers, and no `ip route add` on the controller. -/
def NetworkRoutesSpec (env : Env) (config : ClusterConfig) (s : St) : Prop :=
  (∀ a ∈ config.workers, ∀ b ∈ config.workers, a.name ≠ b.name →
    ((setupNetworking env config s).1.trace.filter
      (isExecOf a.ipAddress (routeCmd b))).length = 1) ∧
  ∀ act ∈ (setupNetworking env config s).1.trace,
    isIpRouteOn config.controller.ipAddress act = false

/-! ## Theorems -/

theorem if_error_ok {c : Prop} [Decidable c] {m : String} {rest : Except String Unit}
    (h : (if c then Except.error m else rest) = Except.ok ()) :
    ¬ c ∧ rest = Except.ok () := by
  by_cases hc : c
  · rw [if_pos hc] at h; exact Except.noConfusion h
  · rw [if_neg hc] at h; exact ⟨hc, h⟩

theorem validateWorkers_ok : ∀ ws : List Node, validateWorkers ws = Except.ok () →
    ∀ w ∈ ws, w.ipAddress ≠ "" ∧ w.name ≠ "" ∧ w.podCIDR ≠ "" := by
  intro ws
  induction ws with
  | nil => intro _ w hw; cases hw
  | cons w rest ih =>
    intro h x hx
    rw [validateWorkers] at h
    by_cases hc : w.ipAddress = "" ∨ w.name = "" ∨ w.podCIDR = ""
    · rw [if_pos hc] at h; exact Except.noConfusion h
    · rw [if_neg hc] at h
      push_neg at hc
      rcases List.mem_cons.mp hx with hx | hx
      · subst hx; exact ⟨hc.1, hc.2.1, hc.2.2⟩
      · exact ih h x hx

/-- C9 (counterexample).  `invalidDupConfig` has duplicate worker names and
its controller IP equals a worker IP, yet the validation in
`LoadClusterConfig` accepts it. -/
theorem validateClusterConfig_accepts_duplicates :
    validateClusterConfig invalidDupConfig = Except.ok () ∧
    invalidDupConfig.workers.map Node.name = ["worker-0", "worker-0"] ∧
    invalidDupConfig.controller.ipAddress ∈
      invalidDupConfig.workers.map Node.ipAddress := by
  refine ⟨rfl, rfl, ?_⟩
  decide

/-- C9 (amended).  Every configuration accepted by the validation in
`LoadClusterConfig` has all the checked fields non-empty (and a positive
certificate validity), and an empty `cluster_name` is rejected with
exactly the error `cluster_name is required`; the validation checks
neither controller-IP/worker-IP distinctness nor worker-name uniqueness. -/
theorem validateClusterConfig_spec :
    (∀ config : ClusterConfig, validateClusterConfig config = Except.ok () →
      config.clusterName ≠ "" ∧ config.kubernetesVersion ≠ "" ∧
      config.etcdVersion ≠ "" ∧ config.containerdVersion ≠ "" ∧
      config.cniVersion ≠ "" ∧ config.corednsVersion ≠ "" ∧
      config.podCIDR ≠ "" ∧ config.serviceCIDR ≠ "" ∧
      config.clusterDNS ≠ "" ∧ config.workDir ≠ "" ∧
      config.sshKey ≠ "" ∧ config.sshUser ≠ "" ∧
      config.controller.ipAddress ≠ "" ∧ config.controller.name ≠ "" ∧
      config.workers.length ≠ 0 ∧
      (∀ w ∈ config.workers, w.ipAddress ≠ "" ∧ w.name ≠ "" ∧ w.podCIDR ≠ "") ∧
      config.certificates.country ≠ "" ∧ 0 < config.certificates.validityDays) ∧
    (∀ config : ClusterConfig, config.clusterName = "" →
      validateClusterConfig config = Except.error "cluster_name is required") := by
  constructor
  · intro config h
    unfold validateClusterConfig at h
    obtain ⟨h1, h⟩ := if_error_ok h
    obtain ⟨h2, h⟩ := if_error_ok h
    obtain ⟨h3, h⟩ := if_error_ok h
    obtain ⟨h4, h⟩ := if_error_ok h
    obtain ⟨h5, h⟩ := if_error_ok h
    obtain ⟨h6, h⟩ := if_error_ok h
    obtain ⟨h7, h⟩ := if_error_ok h
    obtain ⟨h8, h⟩ := if_error_ok h
    obtain ⟨h9, h⟩ := if_error_ok h
    obtain ⟨h10, h⟩ := if_error_ok h
    obtain ⟨h11, h⟩ := if_error_ok h
    obtain ⟨h12, h⟩ := if_error_ok h
    obtain ⟨h13, h⟩ := if_error_ok h
    obtain ⟨h14, h⟩ := if_error_ok h
    push_neg at h13
    rcases hv : validateWorkers config.workers with e | u
    all_goals rw [hv] at h
    · exact Except.noConfusion h
    · dsimp only at h
      obtain ⟨h15, -⟩ := if_error_ok h
      push_neg at h15
      exact ⟨h1, h2, h3, h4, h5, h6, h7, h8, h9, h10, h11, h12, h13.1, h13.2,
        h14, validateWorkers_ok _ hv, h15.1, by omega⟩
  · intro config h
    unfold validateClusterConfig
    rw [if_pos h]

/-- Witness for `validateClusterConfig_spec` at concrete inputs. -/
theorem validateClusterConfig_spec_witness :
    invalidDupConfig.clusterName ≠ "" ∧
    validateClusterConfig { invalidDupConfig with clusterName := "" } =
      Except.error "cluster_name is required" :=
  ⟨(validateClusterConfig_spec.1 invalidDupConfig rfl).1,
   validateClusterConfig_spec.2 _ rfl⟩

theorem andThen_ok {x : St × Except Err Unit} {f : St → St × Except Err Unit}
    (h : x.2 = Except.ok ()) : andThen x f = f x.1 := by
  obtain ⟨s, r⟩ := x
  cases r with
  | ok u => cases u; rfl
  | error e => exact Except.noConfusion h

theorem andThen_error {x : St × Except Err Unit} {f : St → St × Except Err Unit}
    {e : Err} (h : x.2 = Except.error e) : andThen x f = (x.1, Except.error e) := by
  obtain ⟨s, r⟩ := x
  cases r with
  | ok u => exact Except.noConfusion h
  | error e' => cases h; rfl

theorem traceMono_andThen {f g : St → St × Except Err Unit}
    (hf : TraceMono f) (hg : TraceMono g) :
    TraceMono (fun s => andThen (f s) g) := by
  intro s
  dsimp only
  obtain ⟨Δ₁, h₁⟩ := hf s
  rcases hr : (f s).2 with e | u
  · refine ⟨Δ₁, ?_⟩
    rw [andThen_error hr]
    exact h₁
  · obtain ⟨Δ₂, h₂⟩ := hg (f s).1
    refine ⟨Δ₁ ++ Δ₂, ?_⟩
    cases u
    rw [andThen_ok hr, h₂, h₁, List.append_assoc]

theorem deltaElems_andThen {f g : St → St × Except Err Unit} {P : Action → Prop}
    (hf : DeltaElems f P) (hg : DeltaElems g P) :
    DeltaElems (fun s => andThen (f s) g) P := by
  intro s a ha
  dsimp only at ha
  rcases hr : (f s).2 with e | u
  · rw [andThen_error hr] at ha
    exact hf s a ha
  · cases u
    rw [andThen_ok hr] at ha
    rcases hg (f s).1 a ha with h | h
    · exact hf s a h
    · exact Or.inr h

theorem execCmd_trace (env : Env) (host cmd : String) (s : St) :
    (execCmd env host cmd s).1.trace =
      s.trace ++ [Action.exec host cmd (env.execRes s.idx host cmd)] := rfl

theorem runCmds_traceMono (env : Env) (host : String) (wrapErr : String → Err) :
    ∀ cmds : List String, TraceMono (runCmds env host wrapErr cmds) := by
  intro cmds
  induction cmds with
  | nil => intro s; exact ⟨[], (List.append_nil _).symm⟩
  | cons c rest ih =>
    intro s
    rw [runCmds]
    rcases hr : env.execRes s.idx host c with _ | out
    · refine ⟨[Action.exec host c none], ?_⟩
      simp [execCmd, hr]
    · obtain ⟨Δ, hΔ⟩ := ih (execCmd env host c s).1
      refine ⟨Action.exec host c (some out) :: Δ, ?_⟩
      simp only [execCmd, hr] at hΔ ⊢
      rw [hΔ]
      simp

theorem runCmds_elems (env : Env) (host : String) (wrapErr : String → Err) :
    ∀ cmds : List String,
      DeltaElems (runCmds env host wrapErr cmds)
        (fun a => ∃ c r, c ∈ cmds ∧ a = Action.exec host c r) := by
  intro cmds
  induction cmds with
  | nil => intro s a ha; exact Or.inl ha
  | cons c rest ih =>
    intro s a ha
    rw [runCmds] at ha
    rcases hr : env.execRes s.idx host c with _ | out
    · simp only [execCmd, hr] at ha
      rcases List.mem_append.mp ha with h | h
      · exact Or.inl h
      · refine Or.inr ⟨c, none, List.mem_cons_self c rest, ?_⟩
        simpa using h
    · simp only [execCmd, hr] at ha
      rcases ih _ a ha with h | ⟨c', r', hc', ha'⟩
      · simp only [List.mem_append] at h
        rcases h with h | h
        · exact Or.inl h
        · refine Or.inr ⟨c, some out, List.mem_cons_self c rest, ?_⟩
          simpa using h
      · exact Or.inr ⟨c', r', List.mem_cons_of_mem c hc', ha'⟩

theorem destroyNodesLoop_elems (env : Env) : ∀ nodes : List Node,
    DeltaElems (destroyNodesLoop env nodes)
      (fun a => ∃ h c r, c ∈ destroyCommands ∧ a = Action.exec h c r) := by
  intro nodes
  induction nodes with
  | nil => intro s a ha; exact Or.inl ha
  | cons n rest ih =>
    have hrun := runCmds_elems env n.ipAddress
      (fun c => Err.msg ("failed to execute cleanup command '" ++ c ++ "' on " ++ n.name))
      destroyCommands
    intro s a ha
    rw [destroyNodesLoop] at ha
    have := deltaElems_andThen (P := fun a => ∃ h c r, c ∈ destroyCommands ∧ a = Action.exec h c r)
      (fun s a ha => (hrun s a ha).imp id (fun ⟨c, r, hc, he⟩ => ⟨n.ipAddress, c, r, hc, he⟩))
      ih
    exact this s a ha

/-- C5 (counterexample).  In a concrete teardown run, the third cleanup
command issued on the controller is the `rm -rf` command, which is not
suffixed with `|| true`. -/
theorem destroyCluster_orTrue_counterexample :
    ((destroyCluster envAllActive GenerateDefaultConfig st0).1.trace)[2]? =
      some (Action.exec "10.240.0.10"
        "sudo rm -rf /etc/etcd /var/lib/etcd /etc/kubernetes /var/lib/kubernetes /var/lib/kubelet /var/lib/kube-proxy /etc/cni /opt/cni /var/run/kubernetes"
        (some "active")) ∧
    ("|| true".data.isSuffixOf
      "sudo rm -rf /etc/etcd /var/lib/etcd /etc/kubernetes /var/lib/kubernetes /var/lib/kubelet /var/lib/kube-proxy /etc/cni /opt/cni /var/run/kubernetes".data)
      = false := by
  exact ⟨rfl, rfl⟩

/-- C5 (amended).  Every remote command issued by `DestroyCluster` is one
of the seven fixed cleanup commands; of these, exactly the first two (the
`systemctl stop` and `systemctl disable` commands) are suffixed with
`|| true`, while the `rm -rf`, the two `rm -f`, the `daemon-reload` and
the `reset-failed` commands are not. -/
theorem destroyCluster_orTrue_amended :
    (∀ (env : Env) (config : ClusterConfig) (s : St),
      ∀ a ∈ (destroyCluster env config s).1.trace, a ∈ s.trace ∨
        (∃ h c r, c ∈ destroyCommands ∧ a = Action.exec h c r) ∨
        ∃ p ok, a = Action.removeDirLocal p ok) ∧
    (destroyCommands.take 2).all (fun c => "|| true".data.isSuffixOf c.data) = true ∧
    (destroyCommands.drop 2).all (fun c => !"|| true".data.isSuffixOf c.data) = true := by
  refine ⟨?_, rfl, rfl⟩
  intro env config s a ha
  unfold destroyCluster at ha
  rcases hr : (destroyNodesLoop env (nodesOf config) s).2 with e | u
  · rw [andThen_error hr] at ha
    rcases destroyNodesLoop_elems env (nodesOf config) s a ha with h | h
    · exact Or.inl h
    · exact Or.inr (Or.inl h)
  · cases u
    rw [andThen_ok hr] at ha
    set s1 := (destroyNodesLoop env (nodesOf config) s).1 with hs1
    have hmem : a ∈ s1.trace ++ [Action.removeDirLocal config.workDir (env.removeOk s1.idx)] := by
      rcases hok : env.removeOk s1.idx with _ | _ <;>
        simpa [removeDirPrim, hok] using ha
    rcases List.mem_append.mp hmem with h | h
    · rcases destroyNodesLoop_elems env (nodesOf config) s a h with h' | h'
      · exact Or.inl h'
      · exact Or.inr (Or.inl h')
    · refine Or.inr (Or.inr ⟨config.workDir, env.removeOk s1.idx, ?_⟩)
      simpa using h

/-- Witness for `destroyCluster_orTrue_amended` at a concrete run: the
`daemon-reload` exec observed in a concrete teardown trace is indeed one
of the seven cleanup commands. -/
theorem destroyCluster_orTrue_amended_witness :
    Action.exec "10.240.0.10" "sudo systemctl daemon-reload" (some "active") ∈ st0.trace ∨
    (∃ h c r, c ∈ destroyCommands ∧
      Action.exec "10.240.0.10" "sudo systemctl daemon-reload" (some "active") =
        Action.exec h c r) ∨
    (∃ p ok, Action.exec "10.240.0.10" "sudo systemctl daemon-reload" (some "active") =
      Action.removeDirLocal p ok) :=
  destroyCluster_orTrue_amended.1 envAllActive GenerateDefaultConfig st0 _ (by decide)

/-- C3.  The transport ignores its context: each of `ExecuteCommand`,
`CopyFile` and `CopyContent` behaves identically under a cancelled and a
live context, and none of them ever issues a `Session.Signal` (so no
SIGKILL of the remote process ever happens, bounded grace window or
not). -/
theorem sshTransport_ignores_context :
    (∀ (c : RealSSHClient) (env : SSHEnv) (host command : String),
      ExecuteCommandSSH c env { cancelled := true } host command =
        ExecuteCommandSSH c env { cancelled := false } host command) ∧
    (∀ (c : RealSSHClient) (env : SSHEnv) (host localPath remotePath : String),
      CopyFileSSH c env { cancelled := true } host localPath remotePath =
        CopyFileSSH c env { cancelled := false } host localPath remotePath) ∧
    (∀ (c : RealSSHClient) (env : SSHEnv) (host content remotePath : String),
      CopyContentSSH c env { cancelled := true } host content remotePath =
        CopyContentSSH c env { cancelled := false } host content remotePath) ∧
    (∀ (c : RealSSHClient) (env : SSHEnv) (ctx : SSHCtx) (host command : String),
      ∀ a ∈ (ExecuteCommandSSH c env ctx host command).1, a.isSignal = false) ∧
    (∀ (c : RealSSHClient) (env : SSHEnv) (ctx : SSHCtx) (host localPath remotePath : String),
      ∀ a ∈ (CopyFileSSH c env ctx host localPath remotePath).1, a.isSignal = false) ∧
    (∀ (c : RealSSHClient) (env : SSHEnv) (ctx : SSHCtx) (host content remotePath : String),
      ∀ a ∈ (CopyContentSSH c env ctx host content remotePath).1, a.isSignal = false) := by
  have hclient : ∀ (c : RealSSHClient) (env : SSHEnv) (host : String),
      ∀ a ∈ (createSSHClient c env host).1, a.isSignal = false := by
    intro c env host a ha
    unfold createSSHClient at ha
    rcases hk : env.readKeyOk with _ | _
    · simp [hk] at ha
      subst ha; rfl
    · rcases hpk : env.parseKeyOk with _ | _
      · simp [hk, hpk] at ha
        rcases ha with h | h <;> subst h <;> rfl
      · simp [hk, hpk] at ha
        rcases ha with h | h | h <;> subst h <;> rfl
  refine ⟨fun _ _ _ _ => rfl, fun _ _ _ _ _ => rfl, fun _ _ _ _ _ => rfl, ?_, ?_, ?_⟩
  · intro c env ctx host command a ha
    unfold ExecuteCommandSSH at ha
    rcases hcl : createSSHClient c env host with ⟨acts, ok⟩
    rw [hcl] at ha
    have hacts : ∀ x ∈ acts, SSHAction.isSignal x = false := by
      intro x hx
      exact hclient c env host x (by rw [hcl]; exact hx)
    rcases ok with _ | _
    · exact hacts a ha
    · rcases hs : env.sessionOk 0 with _ | _
      · rw [hs] at ha
        simp at ha
        rcases ha with h | h
        · exact hacts a h
        · subst h; rfl
      · rw [hs] at ha
        rcases hr : env.runRes 0 command with _ | out <;> rw [hr] at ha <;>
          simp at ha <;>
          rcases ha with h | h | h
        · exact hacts a h
        · subst h; rfl
        · subst h; rfl
        · exact hacts a h
        · subst h; rfl
        · subst h; rfl
  · intro c env ctx host localPath remotePath a ha
    unfold CopyFileSSH at ha
    rcases hcl : createSSHClient c env host with ⟨acts, ok⟩
    rw [hcl] at ha
    have hacts : ∀ x ∈ acts, SSHAction.isSignal x = false := by
      intro x hx
      exact hclient c env host x (by rw [hcl]; exact hx)
    rcases ok with _ | _
    · exact hacts a ha
    · rcases hs : env.sessionOk 0 with _ | _ <;> rw [hs] at ha
      · simp at ha
        rcases ha with h | h
        · exact hacts a h
        · subst h; rfl
      · rcases hl : env.readLocalOk with _ | _ <;> rw [hl] at ha
        · simp at ha
          rcases ha with h | h | h
          · exact hacts a h
          all_goals subst h; rfl
        · rcases hp : env.pipeOk 0 with _ | _ <;> rw [hp] at ha
          · simp at ha
            rcases ha with h | h | h
            · exact hacts a h
            all_goals subst h; rfl
          · rcases hr : env.runRes 0 ("sudo tee " ++ remotePath ++ " > /dev/null")
              with _ | o1 <;> rw [hr] at ha
            · simp at ha
              rcases ha with h | h | h | h | h
              · exact hacts a h
              all_goals subst h; rfl
            · rcases hs1 : env.sessionOk 1 with _ | _ <;> rw [hs1] at ha
              · simp at ha
                rcases ha with h | h | h | h | h | h
                · exact hacts a h
                all_goals subst h; rfl
              · rcases hr1 : env.runRes 1 ("sudo chmod 644 " ++ remotePath)
                  with _ | o2 <;> rw [hr1] at ha <;> simp at ha <;>
                  rcases ha with h | h | h | h | h | h | h
                · exact hacts a h
                · subst h; rfl
                · subst h; rfl
                · subst h; rfl
                · subst h; rfl
                · subst h; rfl
                · subst h; rfl
                · exact hacts a h
                · subst h; rfl
                · subst h; rfl
                · subst h; rfl
                · subst h; rfl
                · subst h; rfl
                · subst h; rfl
  · intro c env ctx host content remotePath a ha
    unfold CopyContentSSH at ha
    rcases hcl : createSSHClient c env host with ⟨acts, ok⟩
    rw [hcl] at ha
    have hacts : ∀ x ∈ acts, SSHAction.isSignal x = false := by
      intro x hx
      exact hclient c env host x (by rw [hcl]; exact hx)
    rcases ok with _ | _
    · exact hacts a ha
    · rcases hs : env.sessionOk 0 with _ | _ <;> rw [hs] at ha
      · simp at ha
        rcases ha with h | h
        · exact hacts a h
        · subst h; rfl
      · rcases hp : env.pipeOk 0 with _ | _ <;> rw [hp] at ha
        · simp at ha
          rcases ha with h | h
          · exact hacts a h
          · subst h; rfl
        · rcases hr : env.runRes 0 ("sudo tee " ++ remotePath ++ " > /dev/null")
            with _ | o1 <;> rw [hr] at ha
          · simp at ha
            rcases ha with h | h | h | h
            · exact hacts a h
            all_goals subst h; rfl
          · rcases hs1 : env.sessionOk 1 with _ | _ <;> rw [hs1] at ha
            · simp at ha
              rcases ha with h | h | h | h | h
              · exact hacts a h
              all_goals subst h; rfl
            · rcases hr1 : env.runRes 1 ("sudo chmod 644 " ++ remotePath)
                with _ | o2 <;> rw [hr1] at ha <;> simp at ha <;>
                rcases ha with h | h | h | h | h | h
              · exact hacts a h
              · subst h; rfl
              · subst h; rfl
              · subst h; rfl
              · subst h; rfl
              · subst h; rfl
              · exact hacts a h
              · subst h; rfl
              · subst h; rfl
              · subst h; rfl
              · subst h; rfl
              · subst h; rfl

/-- Witness for `sshTransport_ignores_context` at concrete inputs. -/
theorem sshTransport_ignores_context_witness :
    (SSHAction.runCmd "echo 'SSH test'").isSignal = false :=
  sshTransport_ignores_context.2.2.2.1
    { user := "ubuntu", keyPath := "~/.ssh/id_rsa" }
    { readKeyOk := true, parseKeyOk := true, dialOk := true,
      sessionOk := fun _ => true, pipeOk := fun _ => true,
      runRes := fun _ _ => some "SSH test", readLocalOk := true,
      localContent := fun _ => "" }
    { cancelled := true } "10.240.0.10" "echo 'SSH test'"
    (SSHAction.runCmd "echo 'SSH test'") (by decide)

theorem waitLoop_result_aux (env : Env) (host svc : String) (t : Nat) :
    ∀ (fuel dl : Nat) (s : St), dl - s.time ≤ fuel →
      (waitLoop env host svc t dl s).2 = Except.ok () ∨
      (waitLoop env host svc t dl s).2 = Except.error (Err.unhealthy svc t) := by
  intro fuel
  induction fuel with
  | zero =>
    intro dl s hf
    rw [waitLoop, dif_neg (by omega)]
    exact Or.inr rfl
  | succ n ih =>
    intro dl s hf
    rw [waitLoop]
    by_cases ht : s.time < dl
    · rw [dif_pos ht]
      have hr2 : (execCmd env host (probeCmd svc) s).2 =
          env.execRes s.idx host (probeCmd svc) := rfl
      rcases hr : env.execRes s.idx host (probeCmd svc) with _ | out
      · rw [hr2.trans hr]
        exact ih dl _ (by simp [execCmd, sleepFor]; omega)
      · rw [hr2.trans hr]
        dsimp only
        by_cases ha : out.trim = "active"
        · rw [if_pos ha]
          exact Or.inl rfl
        · rw [if_neg ha]
          exact ih dl _ (by simp [execCmd, sleepFor]; omega)
    · rw [dif_neg ht]
      exact Or.inr rfl

/-- C10.  `waitForService` never surfaces a transport error: its only
possible error is the timeout error naming the unit, and whenever a probe
either errors or prints anything that does not trim to `active`, the loop
performs exactly the probe, a five-second sleep, and continues polling. -/
theorem waitForService_swallows_probe_errors :
    (∀ (env : Env) (host svc : String) (t : Nat) (s : St),
      (waitForService env host svc t s).2 = Except.ok () ∨
      (waitForService env host svc t s).2 = Except.error (Err.unhealthy svc t)) ∧
    (∀ (env : Env) (host svc : String) (t dl : Nat) (s : St),
      s.time < dl →
      (∀ out, env.execRes s.idx host (probeCmd svc) = some out → out.trim ≠ "active") →
      waitLoop env host svc t dl s =
        waitLoop env host svc t dl (sleepFor 5 (execCmd env host (probeCmd svc) s).1)) := by
  constructor
  · intro env host svc t s
    exact waitLoop_result_aux env host svc t (s.time + t - s.time) _ s (le_refl _)
  · intro env host svc t dl s ht hno
    conv_lhs => rw [waitLoop]
    rw [dif_pos ht]
    have hr2 : (execCmd env host (probeCmd svc) s).2 =
        env.execRes s.idx host (probeCmd svc) := rfl
    rcases hr : env.execRes s.idx host (probeCmd svc) with _ | out
    · rw [hr2.trans hr]
    · rw [hr2.trans hr]
      dsimp only
      rw [if_neg (hno out hr)]

/-- Witness for `waitForService_swallows_probe_errors`: with a transport
that always errors, the first failed probe is followed by a sleep and a
re-poll, and the final outcome is the timeout error naming the unit. -/
theorem waitForService_swallows_probe_errors_witness :
    ((waitForService
        { envAllActive with execRes := fun _ _ _ => none }
        "10.240.0.10" "etcd" 30 st0).2 = Except.ok () ∨
     (waitForService
        { envAllActive with execRes := fun _ _ _ => none }
        "10.240.0.10" "etcd" 30 st0).2 =
          Except.error (Err.unhealthy "etcd" 30)) ∧
    waitLoop { envAllActive with execRes := fun _ _ _ => none }
        "10.240.0.10" "etcd" 30 30 st0 =
      waitLoop { envAllActive with execRes := fun _ _ _ => none }
        "10.240.0.10" "etcd" 30 30
        (sleepFor 5 (execCmd { envAllActive with execRes := fun _ _ _ => none }
          "10.240.0.10" (probeCmd "etcd") st0).1) :=
  ⟨waitForService_swallows_probe_errors.1 _ "10.240.0.10" "etcd" 30 st0,
   waitForService_swallows_probe_errors.2 _ "10.240.0.10" "etcd" 30 30 st0
     (by decide) (fun out h => Option.noConfusion h)⟩

/-!
## Theorems about the PKI and Config phases
-/

theorem St.ext' {a b : St} (h1 : a.time = b.time) (h2 : a.idx = b.idx)
    (h3 : a.trace = b.trace) : a = b := by
  cases a; cases b; simp_all

theorem genClientCertsLoop_allOk (env : Env) (workDir : String)
    (hok : ∀ i, env.certOk i = true) : ∀ (names : List String) (s : St),
    genClientCertsLoop env workDir names s =
      ({ s with idx := s.idx + names.length,
                trace := s.trace ++
                  names.map fun n => Action.generateClientCert workDir n true },
       Except.ok ()) := by
  intro names
  induction names with
  | nil =>
    intro s
    rw [genClientCertsLoop]
    refine Prod.ext (St.ext' rfl (by simp) (by simp)) rfl
  | cons n rest ih =>
    intro s
    rw [genClientCertsLoop]
    simp only [certClientPrim, hok]
    rw [ih]
    refine Prod.ext (St.ext' rfl (by simp; omega) (by simp)) rfl

/-- C1.  When every certificate operation succeeds, `generateCertificates`
performs, in order: the CA, client certificates for exactly `admin`,
`kube-controller-manager`, `kube-proxy`, `kube-scheduler`,
`service-account` and one per worker in worker order, and finally the
server certificate named `kubernetes` whose SAN host list is exactly
`127.0.0.1, 10.32.0.1, <controller IP>, <controller hostname>,
kubernetes, kubernetes.default, kubernetes.default.svc,
kubernetes.default.svc.cluster, kubernetes.default.svc.cluster.local` —
for every cluster configuration. -/
theorem generateCertificates_issues_in_order (env : Env) (config : ClusterConfig)
    (workDir : String) (s : St) (hok : ∀ i, env.certOk i = true) :
    generateCertificates env config workDir s =
      ({ s with idx := s.idx + ((clientCertNames config).length + 2),
                trace := s.trace ++
                  (Action.generateCA workDir true ::
                    ((clientCertNames config).map fun n =>
                      Action.generateClientCert workDir n true) ++
                    [Action.generateServerCert workDir "kubernetes"
                      (serverHosts config) true]) },
       Except.ok ()) := by
  unfold generateCertificates
  simp only [certCAPrim, hok]
  rw [genClientCertsLoop_allOk env workDir hok]
  simp only [andThen, certServerPrim, hok]
  refine Prod.ext (St.ext' rfl (by simp; omega) (by simp)) rfl

/-- Witness for `generateCertificates_issues_in_order` at a concrete run. -/
theorem generateCertificates_issues_in_order_witness :
    generateCertificates envAllActive GenerateDefaultConfig "/tmp/k8s-hard-way" st0 =
      ({ st0 with
          idx := st0.idx + ((clientCertNames GenerateDefaultConfig).length + 2),
          trace := st0.trace ++
            (Action.generateCA "/tmp/k8s-hard-way" true ::
              ((clientCertNames GenerateDefaultConfig).map fun n =>
                Action.generateClientCert "/tmp/k8s-hard-way" n true) ++
              [Action.generateServerCert "/tmp/k8s-hard-way" "kubernetes"
                (serverHosts GenerateDefaultConfig) true]) },
       Except.ok ()) :=
  generateCertificates_issues_in_order envAllActive GenerateDefaultConfig
    "/tmp/k8s-hard-way" st0 (fun _ => rfl)

set_option maxRecDepth 8000 in
theorem kubeconfigContent_server_line (workDir clusterName name clusterIP : String) :
    ("server: https://" ++ clusterIP ++ ":6443").data <:+:
      (kubeconfigContent workDir clusterName name clusterIP).data := by
  refine ⟨("apiVersion: v1\nclusters:\n- cluster:\n    certificate-authority: "
            ++ workDir ++ "/ca.pem\n    ").data,
          ("\n  name: " ++ clusterName ++
           "\ncontexts:\n- context:\n    cluster: " ++ clusterName ++
           "\n    user: " ++ name ++
           "\n  name: " ++ name ++
           "\ncurrent-context: " ++ name ++
           "\nkind: Config\npreferences: \x7b\x7d\nusers:\n- name: " ++ name ++
           "\n  user:\n    client-certificate: " ++ workDir ++ "/" ++ name ++
           ".pem\n    client-key: " ++ workDir ++ "/" ++ name ++ "-key.pem\n").data, ?_⟩
  show _ = (kubeconfigContent workDir clusterName name clusterIP).data
  unfold kubeconfigContent
  simp only [String.data_append, List.append_assoc, List.cons_append, List.nil_append]

theorem workerKubeconfigsLoop_allOk (env : Env) (config : ClusterConfig)
    (workDir : String) (hw : ∀ i, env.writeOk i = true) :
    ∀ (ws : List Node) (s : St),
    workerKubeconfigsLoop env config workDir ws s =
      ({ s with idx := s.idx + ws.length,
                trace := s.trace ++ ws.map fun w =>
                  Action.writeLocal (workDir ++ "/" ++ w.name ++ ".kubeconfig")
                    (kubeconfigContent workDir config.clusterName w.name
                      (if w.ipAddress ≠ "" then w.ipAddress
                       else config.controller.ipAddress)) true },
       Except.ok ()) := by
  intro ws
  induction ws with
  | nil =>
    intro s
    rw [workerKubeconfigsLoop]
    refine Prod.ext (St.ext' rfl (by simp) (by simp)) rfl
  | cons w rest ih =>
    intro s
    rw [workerKubeconfigsLoop]
    unfold generateKubeconfig
    simp only [writeFilePrim, hw]
    rw [ih]
    refine Prod.ext (St.ext' rfl (by simp; omega) (by simp)) rfl

/-- C7.  Under an environment where local writes succeed,
`createConfigurations` writes the encryption config and then one
kubeconfig per principal: for each worker with the `ip` argument set to
that worker's IP address (falling back to the controller's address only
when a worker IP is empty), then `kube-proxy` (whose empty `ip` argument
falls back to the controller's address), `kube-controller-manager`,
`kube-scheduler` and `admin` with the controller's address; and every
rendered kubeconfig contains the line
`server: https://<effective cluster IP>:6443`. -/
theorem createConfigurations_server_urls (env : Env) (config : ClusterConfig)
    (workDir : String) (s : St)
    (hw : ∀ i, env.writeOk i = true) (hr : ∀ i, env.randOk i = true) :
    ((createConfigurations env config workDir s).2 = Except.ok () ∧
     (createConfigurations env config workDir s).1.trace =
       s.trace ++
         (Action.writeLocal (workDir ++ "/encryption-config.yaml")
            (encryptionConfigContent (encKey env s.idx)) true ::
          (config.workers.map fun w =>
            Action.writeLocal (workDir ++ "/" ++ w.name ++ ".kubeconfig")
              (kubeconfigContent workDir config.clusterName w.name
                (if w.ipAddress ≠ "" then w.ipAddress
                 else config.controller.ipAddress)) true) ++
          [Action.writeLocal (workDir ++ "/kube-proxy.kubeconfig")
             (kubeconfigContent workDir config.clusterName "kube-proxy"
               config.controller.ipAddress) true,
           Action.writeLocal (workDir ++ "/kube-controller-manager.kubeconfig")
             (kubeconfigContent workDir config.clusterName "kube-controller-manager"
               config.controller.ipAddress) true,
           Action.writeLocal (workDir ++ "/kube-scheduler.kubeconfig")
             (kubeconfigContent workDir config.clusterName "kube-scheduler"
               config.controller.ipAddress) true,
           Action.writeLocal (workDir ++ "/admin.kubeconfig")
             (kubeconfigContent workDir config.clusterName "admin"
               config.controller.ipAddress) true])) ∧
    (∀ wd cn n cip, ("server: https://" ++ cip ++ ":6443").data <:+:
      (kubeconfigContent wd cn n cip).data) := by
  refine ⟨?_, fun wd cn n cip => kubeconfigContent_server_line wd cn n cip⟩
  have henc : generateEncryptionConfig env workDir s =
      ({ s with idx := s.idx + 2,
                trace := s.trace ++ [Action.writeLocal
                  (workDir ++ "/encryption-config.yaml")
                  (encryptionConfigContent (encKey env s.idx)) true] },
       Except.ok ()) := by
    unfold generateEncryptionConfig
    rw [if_neg (by rw [hr s.idx]; exact fun h => Bool.noConfusion h)]
    simp only [writeFilePrim, hw]
  unfold createConfigurations
  rw [henc]
  dsimp only
  rw [workerKubeconfigsLoop_allOk env config workDir hw]
  simp only [andThen]
  rw [principalKubeconfigsLoop]
  simp only [String.reduceEq, false_or, or_false, or_self, if_false, ite_false, reduceIte]
  unfold generateKubeconfig
  simp only [writeFilePrim, hw]
  rw [principalKubeconfigsLoop]
  simp only [String.reduceEq, reduceIte]
  unfold generateKubeconfig
  simp only [writeFilePrim, hw]
  rw [principalKubeconfigsLoop]
  simp only [String.reduceEq, reduceIte]
  unfold generateKubeconfig
  simp only [writeFilePrim, hw]
  rw [principalKubeconfigsLoop]
  simp only [String.reduceEq, reduceIte]
  unfold generateKubeconfig
  simp only [writeFilePrim, hw]
  rw [principalKubeconfigsLoop]
  refine ⟨rfl, ?_⟩
  simp [ite_self, List.append_assoc, String.append_assoc]

/-- Witness for `createConfigurations_server_urls` at a concrete run. -/
theorem createConfigurations_server_urls_witness :
    (createConfigurations envAllActive GenerateDefaultConfig "/tmp/k8s-hard-way" st0).2 =
      Except.ok () :=
  (createConfigurations_server_urls envAllActive GenerateDefaultConfig
    "/tmp/k8s-hard-way" st0 (fun _ => rfl) (fun _ => rfl)).1.1

/-!
## Theorems about base64 and the encryption configuration
-/

theorem b64Val_b64Char (n : Nat) : b64Val (b64Char n) = some (n % 64) := by
  have hfin : ∀ m : Fin 64, b64Val (b64Char m.val) = some m.val := by decide
  have hlt : n % 64 < 64 := Nat.mod_lt _ (by norm_num)
  have : b64Char n = b64Char (n % 64) := by
    unfold b64Char
    congr 1
    omega
  rw [this]
  exact hfin ⟨n % 64, hlt⟩

theorem b64Char_ne_eq (n : Nat) : b64Char n ≠ '=' := by
  have hfin : ∀ m : Fin 64, b64Char m.val ≠ '=' := by decide
  have hlt : n % 64 < 64 := Nat.mod_lt _ (by norm_num)
  have h : b64Char n = b64Char (n % 64) := by
    unfold b64Char
    congr 1
    omega
  rw [h]
  exact hfin ⟨n % 64, hlt⟩

theorem b64Char_ne_newline (n : Nat) : b64Char n ≠ '\n' := by
  have hfin : ∀ m : Fin 64, b64Char m.val ≠ '\n' := by decide
  have hlt : n % 64 < 64 := Nat.mod_lt _ (by norm_num)
  have h : b64Char n = b64Char (n % 64) := by
    unfold b64Char
    congr 1
    omega
  rw [h]
  exact hfin ⟨n % 64, hlt⟩

theorem encodeBase64_no_newline : ∀ bs : List Nat, ∀ c ∈ encodeBase64 bs, c ≠ '\n' := by
  intro bs
  induction bs using encodeBase64.induct with
  | case1 b1 b2 b3 rest ih =>
    intro c hc
    rw [encodeBase64] at hc
    simp only [List.mem_cons] at hc
    rcases hc with h | h | h | h | h
    · subst h; exact b64Char_ne_newline _
    · subst h; exact b64Char_ne_newline _
    · subst h; exact b64Char_ne_newline _
    · subst h; exact b64Char_ne_newline _
    · exact ih c h
  | case2 b1 b2 =>
    intro c hc
    rw [encodeBase64] at hc
    simp only [List.mem_cons, List.not_mem_nil, or_false] at hc
    rcases hc with h | h | h | h
    · subst h; exact b64Char_ne_newline _
    · subst h; exact b64Char_ne_newline _
    · subst h; exact b64Char_ne_newline _
    · subst h; decide
  | case3 b1 =>
    intro c hc
    rw [encodeBase64] at hc
    simp only [List.mem_cons, List.not_mem_nil, or_false] at hc
    rcases hc with h | h | h | h
    · subst h; exact b64Char_ne_newline _
    · subst h; exact b64Char_ne_newline _
    · subst h; decide
    · subst h; decide
  | case4 =>
    intro c hc
    rw [encodeBase64] at hc
    cases hc

theorem decodeBase64_encodeBase64 : ∀ bs : List Nat, (∀ b ∈ bs, b < 256) →
    decodeBase64 (encodeBase64 bs) = some bs := by
  intro bs
  induction bs using encodeBase64.induct with
  | case1 b1 b2 b3 rest ih =>
    intro h
    have hb1 : b1 < 256 := h b1 (by simp)
    have hb2 : b2 < 256 := h b2 (by simp)
    have hb3 : b3 < 256 := h b3 (by simp)
    rw [encodeBase64, decodeBase64]
    rw [b64Val_b64Char, b64Val_b64Char]
    dsimp only
    rw [if_neg (b64Char_ne_eq _), b64Val_b64Char]
    dsimp only
    rw [if_neg (b64Char_ne_eq _), b64Val_b64Char]
    dsimp only
    rw [ih (fun b hb => h b (by simp [hb]))]
    dsimp only
    congr 1
    have e1 : b1 / 4 % 64 = b1 / 4 := by omega
    have e2 : (b1 % 4 * 16 + b2 / 16) % 64 = b1 % 4 * 16 + b2 / 16 := by omega
    have e3 : (b2 % 16 * 4 + b3 / 64) % 64 = b2 % 16 * 4 + b3 / 64 := by omega
    rw [e1, e2, e3]
    congr 1
    · omega
    congr 1
    · omega
    congr 1
    omega
  | case2 b1 b2 =>
    intro h
    have hb1 : b1 < 256 := h b1 (by simp)
    have hb2 : b2 < 256 := h b2 (by simp)
    rw [encodeBase64, decodeBase64]
    rw [b64Val_b64Char, b64Val_b64Char]
    dsimp only
    rw [if_neg (b64Char_ne_eq _), b64Val_b64Char]
    dsimp only
    rw [if_pos rfl, if_pos rfl]
    have e1 : b1 / 4 % 64 = b1 / 4 := by omega
    have e2 : (b1 % 4 * 16 + b2 / 16) % 64 = b1 % 4 * 16 + b2 / 16 := by omega
    have e3 : b2 % 16 * 4 % 64 = b2 % 16 * 4 := by omega
    rw [e1, e2, e3]
    congr 1
    congr 1
    · omega
    congr 1
    omega
  | case3 b1 =>
    intro h
    have hb1 : b1 < 256 := h b1 (by simp)
    rw [encodeBase64, decodeBase64]
    rw [b64Val_b64Char, b64Val_b64Char]
    dsimp only
    rw [if_pos rfl]
    rw [if_pos ⟨rfl, rfl⟩]
    have e1 : b1 / 4 % 64 = b1 / 4 := by omega
    have e2 : b1 % 4 * 16 % 64 = b1 % 4 * 16 := by omega
    rw [e1, e2]
    congr 1
    congr 1
    omega
  | case4 =>
    intro _
    rfl

theorem splitLines_ne_nil : ∀ cs : List Char, splitLines cs ≠ [] := by
  intro cs
  cases cs with
  | nil => exact fun h => List.noConfusion h
  | cons c rest =>
    intro h
    rw [splitLines] at h
    by_cases hc : c = '\n'
    · rw [if_pos hc] at h; exact List.noConfusion h
    · rw [if_neg hc] at h; exact List.noConfusion h

theorem headD_cons_tail {l : List (List Char)} (h : l ≠ []) :
    l.headD [] :: l.tail = l := by
  cases l with
  | nil => exact absurd rfl h
  | cons a t => rfl

theorem splitLines_append_noNL : ∀ mid : List Char, (∀ c ∈ mid, c ≠ '\n') →
    ∀ ys : List Char, splitLines (mid ++ ys) =
      (mid ++ (splitLines ys).headD []) :: (splitLines ys).tail := by
  intro mid
  induction mid with
  | nil =>
    intro _ ys
    simp only [List.nil_append]
    exact (headD_cons_tail (splitLines_ne_nil ys)).symm
  | cons c rest ih =>
    intro h ys
    have hc : c ≠ '\n' := h c (by simp)
    rw [List.cons_append, splitLines]
    rw [if_neg hc, ih (fun x hx => h x (by simp [hx])) ys]
    simp

theorem splitLines_line (line : List Char) (h : ∀ c ∈ line, c ≠ '\n')
    (ys : List Char) :
    splitLines (line ++ '\n' :: ys) = line :: splitLines ys := by
  rw [splitLines_append_noNL line h ('\n' :: ys)]
  have hnl : splitLines ('\n' :: ys) = [] :: splitLines ys := by
    rw [splitLines]
    rw [if_pos rfl]
  rw [hnl]
  simp

theorem encKey_length (env : Env) (idx : Nat) : (encKey env idx).length = 32 := by
  simp [encKey]

theorem encKey_bytes (env : Env) (idx : Nat) : ∀ b ∈ encKey env idx, b < 256 := by
  intro b hb
  simp only [encKey, List.mem_ofFn] at hb
  obtain ⟨i, hi⟩ := hb
  subst hi
  exact Nat.mod_lt _ (by norm_num)

set_option maxRecDepth 8000 in
theorem encLines (key : List Nat) :
    splitLines (encryptionConfigContent key).data =
      [ "kind: EncryptionConfig".data, "apiVersion: v1".data, "resources:".data,
        "  - resources:".data, "      - secrets".data, "    providers:".data,
        "      - aescbc:".data, "          keys:".data,
        "            - name: key1".data,
        "              secret: ".data ++ encodeBase64 key,
        "      - identity: \x7b\x7d".data, [] ] := by
  have hmidNL : ∀ c ∈ "              secret: ".data ++ encodeBase64 key, c ≠ '\n' := by
    intro c hc
    rcases List.mem_append.mp hc with h | h
    · have hlit : ∀ x ∈ "              secret: ".data, x ≠ '\n' := by decide
      exact hlit c h
    · exact encodeBase64_no_newline key c h
  have hdecomp : (encryptionConfigContent key).data =
      "kind: EncryptionConfig".data ++ '\n' ::
      ("apiVersion: v1".data ++ '\n' ::
      ("resources:".data ++ '\n' ::
      ("  - resources:".data ++ '\n' ::
      ("      - secrets".data ++ '\n' ::
      ("    providers:".data ++ '\n' ::
      ("      - aescbc:".data ++ '\n' ::
      ("          keys:".data ++ '\n' ::
      ("            - name: key1".data ++ '\n' ::
      (("              secret: ".data ++ encodeBase64 key) ++ '\n' ::
      ("      - identity: \x7b\x7d".data ++ ['\n'])))))))))) := by
    rfl
  rw [hdecomp]
  rw [splitLines_line _ (by decide), splitLines_line _ (by decide),
      splitLines_line _ (by decide), splitLines_line _ (by decide),
      splitLines_line _ (by decide), splitLines_line _ (by decide),
      splitLines_line _ (by decide), splitLines_line _ (by decide),
      splitLines_line _ (by decide)]
  rw [splitLines_line _ hmidNL]
  rw [splitLines_line _ (by decide)]
  rfl

theorem secret_line_ne (key : List Nat) (target : List Char)
    (h6 : target[6]? ≠ some ' ') :
    "              secret: ".data ++ encodeBase64 key ≠ target := by
  intro he
  apply h6
  rw [← he]
  rw [List.getElem?_append_left (by decide)]
  rfl

/-- C8.  `generateEncryptionConfig` renders the fixed template around the
base64 encoding of the 32 freshly drawn random bytes; the embedded secret
decodes back to exactly those 32 bytes; and line-by-line the rendered
configuration contains exactly one `- aescbc:` provider followed (for the
`secrets` resource) by exactly one `- identity:` provider. -/
theorem generateEncryptionConfig_spec (env : Env) (workDir : String) (s : St)
    (hr : env.randOk s.idx = true) (hw : ∀ i, env.writeOk i = true) :
    generateEncryptionConfig env workDir s =
      ({ s with idx := s.idx + 2,
                trace := s.trace ++ [Action.writeLocal
                  (workDir ++ "/encryption-config.yaml")
                  (encryptionConfigContent (encKey env s.idx)) true] },
       Except.ok ()) ∧
    (encKey env s.idx).length = 32 ∧
    decodeBase64 (encodeBase64 (encKey env s.idx)) = some (encKey env s.idx) ∧
    (splitLines (encryptionConfigContent (encKey env s.idx)).data).count
      "      - aescbc:".data = 1 ∧
    (splitLines (encryptionConfigContent (encKey env s.idx)).data).count
      "      - identity: \x7b\x7d".data = 1 ∧
    (splitLines (encryptionConfigContent (encKey env s.idx)).data)[6]? =
      some "      - aescbc:".data ∧
    (splitLines (encryptionConfigContent (encKey env s.idx)).data)[10]? =
      some "      - identity: \x7b\x7d".data ∧
    "      - secrets".data ∈ splitLines (encryptionConfigContent (encKey env s.idx)).data := by
  have hmidA : "              secret: ".data ++ encodeBase64 (encKey env s.idx) ≠
      "      - aescbc:".data := secret_line_ne _ _ (by decide)
  have hmidI : "              secret: ".data ++ encodeBase64 (encKey env s.idx) ≠
      "      - identity: \x7b\x7d".data := secret_line_ne _ _ (by decide)
  refine ⟨?_, encKey_length env s.idx,
    decodeBase64_encodeBase64 _ (encKey_bytes env s.idx), ?_, ?_, ?_, ?_, ?_⟩
  · unfold generateEncryptionConfig
    rw [if_neg (by rw [hr]; exact fun h => Bool.noConfusion h)]
    simp only [writeFilePrim, hw]
  · rw [encLines]
    simp [List.count_cons, hmidA]
  · rw [encLines]
    simp [List.count_cons, hmidI]
  · rw [encLines]
    rfl
  · rw [encLines]
    rfl
  · rw [encLines]
    simp

/-- Witness for `generateEncryptionConfig_spec` at a concrete run. -/
theorem generateEncryptionConfig_spec_witness :
    (encKey envAllActive st0.idx).length = 32 ∧
    decodeBase64 (encodeBase64 (encKey envAllActive st0.idx)) =
      some (encKey envAllActive st0.idx) :=
  ⟨(generateEncryptionConfig_spec envAllActive "/tmp/k8s-hard-way" st0 rfl
      (fun _ => rfl)).2.1,
   (generateEncryptionConfig_spec envAllActive "/tmp/k8s-hard-way" st0 rfl
      (fun _ => rfl)).2.2.1⟩

theorem andThen_assoc (x : St × Except Err Unit) (f g : St → St × Except Err Unit) :
    andThen (andThen x f) g = andThen x (fun s => andThen (f s) g) := by
  obtain ⟨s, r⟩ := x
  cases r with
  | ok u => rfl
  | error e => rfl

theorem lastServicesLoop_cons (env : Env) (config : ClusterConfig)
    (service : String) (rest : List String) (s : St) :
    lastServicesLoop env config (service :: rest) s =
      andThen (startServiceStep env config service s) fun s1 =>
        andThen (gate env config.controller.ipAddress service 30
          (service ++ " failed to become healthy") s1)
          (lastServicesLoop env config rest) := by
  rw [lastServicesLoop]
  unfold startServiceStep
  rcases hr : execCmd env config.controller.ipAddress (startServiceCmd service) s
    with ⟨s1, r⟩
  rcases r with _ | out
  · rfl
  · rfl

theorem ne_of_lit_prefix (a rest t : String) (h : ¬ a.data <+: t.data) :
    a ++ rest ≠ t := by
  intro he
  apply h
  rw [← he, String.data_append]
  exact List.prefix_append _ _

theorem waitLoop_elems_aux (env : Env) (host unit : String) (t : Nat) :
    ∀ (fuel dl : Nat) (s : St), dl - s.time ≤ fuel →
      ∀ a ∈ (waitLoop env host unit t dl s).1.trace,
        a ∈ s.trace ∨ (∃ r, a = Action.exec host (probeCmd unit) r) ∨
          a = Action.sleep 5 := by
  intro fuel
  induction fuel with
  | zero =>
    intro dl s hf a ha
    rw [waitLoop, dif_neg (by omega)] at ha
    exact Or.inl ha
  | succ n ih =>
    intro dl s hf a ha
    rw [waitLoop] at ha
    by_cases ht : s.time < dl
    · rw [dif_pos ht] at ha
      have hr2 : (execCmd env host (probeCmd unit) s).2 =
          env.execRes s.idx host (probeCmd unit) := rfl
      rcases hr : env.execRes s.idx host (probeCmd unit) with _ | out
      · rw [hr2.trans hr] at ha
        rcases ih dl _ (by simp [execCmd, sleepFor]; omega) a ha with h | h
        · simp only [sleepFor, execCmd, hr] at h
          simp only [List.append_assoc, List.mem_append] at h
          rcases h with h | h
          · exact Or.inl h
          · simp only [List.mem_append, List.mem_singleton] at h
            rcases h with h | h
            · exact Or.inr (Or.inl ⟨none, h⟩)
            · exact Or.inr (Or.inr h)
        · exact Or.inr h
      · rw [hr2.trans hr] at ha
        dsimp only at ha
        by_cases hact : out.trim = "active"
        · rw [if_pos hact] at ha
          simp only [execCmd] at ha
          rcases List.mem_append.mp ha with h | h
          · exact Or.inl h
          · refine Or.inr (Or.inl ⟨env.execRes s.idx host (probeCmd unit), ?_⟩)
            simpa using h
        · rw [if_neg hact] at ha
          rcases ih dl _ (by simp [execCmd, sleepFor]; omega) a ha with h | h
          · simp only [sleepFor, execCmd, hr] at h
            simp only [List.append_assoc, List.mem_append] at h
            rcases h with h | h
            · exact Or.inl h
            · simp only [List.mem_append, List.mem_singleton] at h
              rcases h with h | h
              · exact Or.inr (Or.inl ⟨some out, h⟩)
              · exact Or.inr (Or.inr h)
          · exact Or.inr h
    · rw [dif_neg ht] at ha
      exact Or.inl ha

theorem waitForService_elems (env : Env) (host unit : String) (t : Nat) (s : St) :
    ∀ a ∈ (waitForService env host unit t s).1.trace,
      a ∈ s.trace ∨ (∃ r, a = Action.exec host (probeCmd unit) r) ∨
        a = Action.sleep 5 :=
  waitLoop_elems_aux env host unit t (s.time + t - s.time) _ s (le_refl _)

theorem waitLoop_ok_aux (env : Env) (host unit : String) (t : Nat) :
    ∀ (fuel dl : Nat) (s : St), dl - s.time ≤ fuel →
      (waitLoop env host unit t dl s).2 = Except.ok () →
      ∃ pre out, (waitLoop env host unit t dl s).1.trace =
          s.trace ++ pre ++ [Action.exec host (probeCmd unit) (some out)] ∧
        out.trim = "active" ∧
        ∀ a ∈ pre, (∃ r, a = Action.exec host (probeCmd unit) r) ∨ a = Action.sleep 5 := by
  intro fuel
  induction fuel with
  | zero =>
    intro dl s hf hok
    rw [waitLoop, dif_neg (by omega)] at hok
    exact Except.noConfusion hok
  | succ n ih =>
    intro dl s hf hok
    rw [waitLoop] at hok ⊢
    by_cases ht : s.time < dl
    · rw [dif_pos ht] at hok ⊢
      have hr2 : (execCmd env host (probeCmd unit) s).2 =
          env.execRes s.idx host (probeCmd unit) := rfl
      rcases hr : env.execRes s.idx host (probeCmd unit) with _ | out
      · rw [hr2.trans hr] at hok ⊢
        obtain ⟨pre, o, htr, hact, hpre⟩ :=
          ih dl _ (by simp [execCmd, sleepFor]; omega) hok
        refine ⟨Action.exec host (probeCmd unit) none :: Action.sleep 5 :: pre, o, ?_, hact, ?_⟩
        · rw [htr]
          simp only [sleepFor, execCmd, hr]
          simp [List.append_assoc]
        · intro a ha
          rcases List.mem_cons.mp ha with h | h
          · exact Or.inl ⟨none, h⟩
          · rcases List.mem_cons.mp h with h' | h'
            · exact Or.inr h'
            · exact hpre a h'
      · rw [hr2.trans hr] at hok ⊢
        dsimp only at hok ⊢
        by_cases hact : out.trim = "active"
        · rw [if_pos hact] at hok ⊢
          refine ⟨[], out, ?_, hact, by intro a ha; cases ha⟩
          simp [execCmd, hr]
        · rw [if_neg hact] at hok ⊢
          obtain ⟨pre, o, htr, hact', hpre⟩ :=
            ih dl _ (by simp [execCmd, sleepFor]; omega) hok
          refine ⟨Action.exec host (probeCmd unit) (some out) :: Action.sleep 5 :: pre,
            o, ?_, hact', ?_⟩
          · rw [htr]
            simp only [sleepFor, execCmd, hr]
            simp [List.append_assoc]
          · intro a ha
            rcases List.mem_cons.mp ha with h | h
            · exact Or.inl ⟨some out, h⟩
            · rcases List.mem_cons.mp h with h' | h'
              · exact Or.inr h'
              · exact hpre a h'
    · rw [dif_neg ht] at hok
      exact Except.noConfusion hok

theorem waitForService_ok (env : Env) (host unit : String) (t : Nat) (s : St)
    (hok : (waitForService env host unit t s).2 = Except.ok ()) :
    ∃ pre out, (waitForService env host unit t s).1.trace =
        s.trace ++ pre ++ [Action.exec host (probeCmd unit) (some out)] ∧
      out.trim = "active" ∧
      ∀ a ∈ pre, (∃ r, a = Action.exec host (probeCmd unit) r) ∨ a = Action.sleep 5 :=
  waitLoop_ok_aux env host unit t (s.time + t - s.time) _ s (le_refl _) hok

theorem deltaElems_mono {f : St → St × Except Err Unit} {P Q : Action → Prop}
    (h : DeltaElems f P) (himp : ∀ a, P a → Q a) : DeltaElems f Q := by
  intro s a ha
  rcases h s a ha with h' | h'
  · exact Or.inl h'
  · exact Or.inr (himp a h')

theorem waitLoop_traceMono_aux (env : Env) (host unit : String) (t : Nat) :
    ∀ (fuel dl : Nat) (s : St), dl - s.time ≤ fuel →
      ∃ Δ, (waitLoop env host unit t dl s).1.trace = s.trace ++ Δ := by
  intro fuel
  induction fuel with
  | zero =>
    intro dl s hf
    rw [waitLoop, dif_neg (by omega)]
    exact ⟨[], (List.append_nil _).symm⟩
  | succ n ih =>
    intro dl s hf
    rw [waitLoop]
    by_cases ht : s.time < dl
    · rw [dif_pos ht]
      have hr2 : (execCmd env host (probeCmd unit) s).2 =
          env.execRes s.idx host (probeCmd unit) := rfl
      rcases hr : env.execRes s.idx host (probeCmd unit) with _ | out
      · rw [hr2.trans hr]
        obtain ⟨Δ, hΔ⟩ := ih dl (sleepFor 5 (execCmd env host (probeCmd unit) s).1)
          (by simp [execCmd, sleepFor]; omega)
        refine ⟨Action.exec host (probeCmd unit) none :: Action.sleep 5 :: Δ, ?_⟩
        rw [hΔ]
        simp only [sleepFor, execCmd, hr]
        simp [List.append_assoc]
      · rw [hr2.trans hr]
        dsimp only
        by_cases hact : out.trim = "active"
        · rw [if_pos hact]
          refine ⟨[Action.exec host (probeCmd unit) (some out)], ?_⟩
          simp [execCmd, hr]
        · rw [if_neg hact]
          obtain ⟨Δ, hΔ⟩ := ih dl (sleepFor 5 (execCmd env host (probeCmd unit) s).1)
            (by simp [execCmd, sleepFor]; omega)
          refine ⟨Action.exec host (probeCmd unit) (some out) :: Action.sleep 5 :: Δ, ?_⟩
          rw [hΔ]
          simp only [sleepFor, execCmd, hr]
          simp [List.append_assoc]
    · rw [dif_neg ht]
      exact ⟨[], (List.append_nil _).symm⟩

theorem waitForService_traceMono (env : Env) (host unit : String) (t : Nat) :
    TraceMono (waitForService env host unit t) := fun s =>
  waitLoop_traceMono_aux env host unit t (s.time + t - s.time) _ s (le_refl _)

theorem gate_traceMono (env : Env) (host unit : String) (t : Nat) (ctx : String) :
    TraceMono (gate env host unit t ctx) := by
  intro s
  obtain ⟨Δ, hΔ⟩ := waitForService_traceMono env host unit t s
  unfold gate
  rcases hw : waitForService env host unit t s with ⟨s1, r⟩
  rw [hw] at hΔ
  rcases r with e | u
  · exact ⟨Δ, hΔ⟩
  · exact ⟨Δ, hΔ⟩

theorem gate_elems (env : Env) (host unit : String) (t : Nat) (ctx : String) :
    DeltaElems (gate env host unit t ctx)
      (fun a => (∃ r, a = Action.exec host (probeCmd unit) r) ∨ a = Action.sleep 5) := by
  intro s a ha
  have helems := waitForService_elems env host unit t s
  unfold gate at ha
  rcases hw : waitForService env host unit t s with ⟨s1, r⟩
  rw [hw] at helems ha
  rcases r with e | u
  · exact helems a ha
  · exact helems a ha

theorem startEtcd_traceMono (env : Env) (config : ClusterConfig) :
    TraceMono (startEtcd env config) := by
  intro s
  unfold startEtcd
  rcases hr : env.execRes s.idx config.controller.ipAddress startEtcdCmd with _ | out <;>
    exact ⟨[Action.exec config.controller.ipAddress startEtcdCmd
      (env.execRes s.idx config.controller.ipAddress startEtcdCmd)],
      by simp [execCmd, hr]⟩

theorem startEtcd_elems (env : Env) (config : ClusterConfig) :
    DeltaElems (startEtcd env config)
      (fun a => ∃ r, a = Action.exec config.controller.ipAddress startEtcdCmd r) := by
  intro s a ha
  unfold startEtcd at ha
  rcases hr : env.execRes s.idx config.controller.ipAddress startEtcdCmd with _ | out <;>
    rw [show (execCmd env config.controller.ipAddress startEtcdCmd s) =
      ({ s with idx := s.idx + 1, trace := s.trace ++ [Action.exec config.controller.ipAddress startEtcdCmd (env.execRes s.idx config.controller.ipAddress startEtcdCmd)] },
       env.execRes s.idx config.controller.ipAddress startEtcdCmd) from rfl, hr] at ha <;>
    simp only [List.mem_append, List.mem_singleton] at ha <;>
    rcases ha with h | h
  · exact Or.inl h
  · exact Or.inr ⟨none, h⟩
  · exact Or.inl h
  · exact Or.inr ⟨some out, h⟩

theorem startApiServer_traceMono (env : Env) (config : ClusterConfig) :
    TraceMono (startApiServer env config) := by
  intro s
  unfold startApiServer
  rcases hr : env.execRes s.idx config.controller.ipAddress
      (startServiceCmd "kube-apiserver") with _ | out <;>
    exact ⟨[Action.exec config.controller.ipAddress (startServiceCmd "kube-apiserver")
      (env.execRes s.idx config.controller.ipAddress (startServiceCmd "kube-apiserver"))],
      by simp [execCmd, hr]⟩

theorem startApiServer_elems (env : Env) (config : ClusterConfig) :
    DeltaElems (startApiServer env config)
      (fun a => ∃ r, a = Action.exec config.controller.ipAddress
        (startServiceCmd "kube-apiserver") r) := by
  intro s a ha
  unfold startApiServer at ha
  rcases hr : env.execRes s.idx config.controller.ipAddress
      (startServiceCmd "kube-apiserver") with _ | out <;>
    rw [show (execCmd env config.controller.ipAddress (startServiceCmd "kube-apiserver") s) =
      ({ s with idx := s.idx + 1, trace := s.trace ++ [Action.exec config.controller.ipAddress (startServiceCmd "kube-apiserver") (env.execRes s.idx config.controller.ipAddress (startServiceCmd "kube-apiserver"))] },
       env.execRes s.idx config.controller.ipAddress (startServiceCmd "kube-apiserver")) from rfl,
      hr] at ha <;>
    simp only [List.mem_append, List.mem_singleton] at ha <;>
    rcases ha with h | h
  · exact Or.inl h
  · exact Or.inr ⟨none, h⟩
  · exact Or.inl h
  · exact Or.inr ⟨some out, h⟩

theorem startServiceStep_traceMono (env : Env) (config : ClusterConfig) (service : String) :
    TraceMono (startServiceStep env config service) := by
  intro s
  unfold startServiceStep
  rcases hr : env.execRes s.idx config.controller.ipAddress
      (startServiceCmd service) with _ | out <;>
    exact ⟨[Action.exec config.controller.ipAddress (startServiceCmd service)
      (env.execRes s.idx config.controller.ipAddress (startServiceCmd service))],
      by simp [execCmd, hr]⟩

theorem startServiceStep_elems (env : Env) (config : ClusterConfig) (service : String) :
    DeltaElems (startServiceStep env config service)
      (fun a => ∃ r, a = Action.exec config.controller.ipAddress
        (startServiceCmd service) r) := by
  intro s a ha
  unfold startServiceStep at ha
  rcases hr : env.execRes s.idx config.controller.ipAddress
      (startServiceCmd service) with _ | out <;>
    rw [show (execCmd env config.controller.ipAddress (startServiceCmd service) s) =
      ({ s with idx := s.idx + 1, trace := s.trace ++ [Action.exec config.controller.ipAddress (startServiceCmd service) (env.execRes s.idx config.controller.ipAddress (startServiceCmd service))] },
       env.execRes s.idx config.controller.ipAddress (startServiceCmd service)) from rfl,
      hr] at ha <;>
    simp only [List.mem_append, List.mem_singleton] at ha <;>
    rcases ha with h | h
  · exact Or.inl h
  · exact Or.inr ⟨none, h⟩
  · exact Or.inl h
  · exact Or.inr ⟨some out, h⟩

theorem uploadEtcdService_traceMono (env : Env) (config : ClusterConfig) :
    TraceMono (uploadEtcdService env config) := by
  intro s
  unfold uploadEtcdService
  rcases hk : env.copyContentOk s.idx with _ | _ <;>
    exact ⟨[Action.copyContent config.controller.ipAddress "/etc/systemd/system/etcd.service"
      (generateEtcdService config.controller) (env.copyContentOk s.idx)],
      by simp [copyContentPrim, hk]⟩

theorem uploadEtcdService_elems (env : Env) (config : ClusterConfig) :
    DeltaElems (uploadEtcdService env config)
      (fun a => ∃ h rp ct ok, a = Action.copyContent h rp ct ok) := by
  intro s a ha
  unfold uploadEtcdService at ha
  rcases hk : env.copyContentOk s.idx with _ | _ <;>
    simp only [copyContentPrim, hk] at ha <;>
    rcases List.mem_append.mp ha with h | h
  · exact Or.inl h
  · exact Or.inr ⟨_, _, _, _, by simpa using h⟩
  · exact Or.inl h
  · exact Or.inr ⟨_, _, _, _, by simpa using h⟩

theorem copyEtcdCertsLoop_traceMono (env : Env) (config : ClusterConfig)
    (workDir : String) : ∀ files : List String,
    TraceMono (copyEtcdCertsLoop env config workDir files) := by
  intro files
  induction files with
  | nil => intro s; exact ⟨[], (List.append_nil _).symm⟩
  | cons file rest ih =>
    intro s
    rw [copyEtcdCertsLoop]
    rcases hc : env.copyFileOk s.idx with _ | _
    · simp only [copyFilePrim, hc]
      exact ⟨[Action.copyFile config.controller.ipAddress (workDir ++ "/" ++ file)
        ("/etc/etcd/" ++ file) false], by simp⟩
    · simp only [copyFilePrim, hc]
      rcases hr : env.execRes (s.idx + 1) config.controller.ipAddress
          ("sudo chown etcd:etcd /etc/etcd/" ++ file) with _ | out
      · simp only [execCmd, hr]
        exact ⟨[Action.copyFile config.controller.ipAddress (workDir ++ "/" ++ file)
          ("/etc/etcd/" ++ file) true,
          Action.exec config.controller.ipAddress
            ("sudo chown etcd:etcd /etc/etcd/" ++ file) none], by simp⟩
      · simp only [execCmd, hr]
        obtain ⟨Δ, hΔ⟩ := ih _
        refine ⟨Action.copyFile config.controller.ipAddress (workDir ++ "/" ++ file)
          ("/etc/etcd/" ++ file) true ::
          Action.exec config.controller.ipAddress
            ("sudo chown etcd:etcd /etc/etcd/" ++ file) (some out) :: Δ, ?_⟩
        rw [hΔ]
        simp [List.append_assoc]

theorem copyEtcdCertsLoop_elems (env : Env) (config : ClusterConfig)
    (workDir : String) : ∀ files : List String,
    DeltaElems (copyEtcdCertsLoop env config workDir files)
      (fun a => (∃ h l rp ok, a = Action.copyFile h l rp ok) ∨
        ∃ f r, a = Action.exec config.controller.ipAddress
          ("sudo chown etcd:etcd /etc/etcd/" ++ f) r) := by
  intro files
  induction files with
  | nil => intro s a ha; exact Or.inl ha
  | cons file rest ih =>
    intro s a ha
    rw [copyEtcdCertsLoop] at ha
    rcases hc : env.copyFileOk s.idx with _ | _
    · simp only [copyFilePrim, hc] at ha
      rcases List.mem_append.mp ha with h | h
      · exact Or.inl h
      · exact Or.inr (Or.inl ⟨_, _, _, _, by simpa using h⟩)
    · simp only [copyFilePrim, hc] at ha
      rcases hr : env.execRes (s.idx + 1) config.controller.ipAddress
          ("sudo chown etcd:etcd /etc/etcd/" ++ file) with _ | out
      · simp only [execCmd, hr] at ha
        simp only [List.append_assoc, List.mem_append] at ha
        rcases ha with h | h
        · exact Or.inl h
        · simp only [List.mem_append, List.mem_singleton] at h
          rcases h with h | h
          · exact Or.inr (Or.inl ⟨_, _, _, _, by simpa using h⟩)
          · exact Or.inr (Or.inr ⟨file, none, h⟩)
      · simp only [execCmd, hr] at ha
        rcases ih _ a ha with h | h
        · simp only [List.append_assoc, List.mem_append] at h
          rcases h with h | h
          · exact Or.inl h
          · simp only [List.mem_append, List.mem_singleton] at h
            rcases h with h | h
            · exact Or.inr (Or.inl ⟨_, _, _, _, by simpa using h⟩)
            · exact Or.inr (Or.inr ⟨file, some out, h⟩)
        · exact Or.inr h

theorem copyK8sFilesLoop_traceMono (env : Env) (config : ClusterConfig)
    (workDir : String) : ∀ files : List String,
    TraceMono (copyK8sFilesLoop env config workDir files) := by
  intro files
  induction files with
  | nil => intro s; exact ⟨[], (List.append_nil _).symm⟩
  | cons file rest ih =>
    intro s
    rw [copyK8sFilesLoop]
    rcases hc : env.copyFileOk s.idx with _ | _
    · simp only [copyFilePrim, hc]
      exact ⟨[Action.copyFile config.controller.ipAddress (workDir ++ "/" ++ file)
        ("/var/lib/kubernetes/" ++ file) false], by simp⟩
    · simp only [copyFilePrim, hc]
      obtain ⟨Δ, hΔ⟩ := ih _
      refine ⟨Action.copyFile config.controller.ipAddress (workDir ++ "/" ++ file)
        ("/var/lib/kubernetes/" ++ file) true :: Δ, ?_⟩
      rw [hΔ]
      simp [List.append_assoc]

theorem copyK8sFilesLoop_elems (env : Env) (config : ClusterConfig)
    (workDir : String) : ∀ files : List String,
    DeltaElems (copyK8sFilesLoop env config workDir files)
      (fun a => ∃ h l rp ok, a = Action.copyFile h l rp ok) := by
  intro files
  induction files with
  | nil => intro s a ha; exact Or.inl ha
  | cons file rest ih =>
    intro s a ha
    rw [copyK8sFilesLoop] at ha
    rcases hc : env.copyFileOk s.idx with _ | _
    · simp only [copyFilePrim, hc] at ha
      rcases List.mem_append.mp ha with h | h
      · exact Or.inl h
      · exact Or.inr ⟨_, _, _, _, by simpa using h⟩
    · simp only [copyFilePrim, hc] at ha
      rcases ih _ a ha with h | h
      · rcases List.mem_append.mp h with h' | h'
        · exact Or.inl h'
        · exact Or.inr ⟨_, _, _, _, by simpa using h'⟩
      · exact Or.inr h

theorem uploadControlPlaneServices_traceMono (env : Env) (config : ClusterConfig) :
    TraceMono (uploadControlPlaneServices env config) := by
  intro s
  unfold uploadControlPlaneServices
  rcases h1 : env.copyContentOk s.idx with _ | _
  · simp only [copyContentPrim, h1]
    exact ⟨_, rfl⟩
  · simp only [copyContentPrim, h1]
    rcases h2 : env.copyContentOk (s.idx + 1) with _ | _
    · simp only [copyContentPrim, h2]
      exact ⟨_, by rw [List.append_assoc]⟩
    · simp only [copyContentPrim, h2]
      rcases h3 : env.copyContentOk (s.idx + 1 + 1) with _ | _
      · simp only [copyContentPrim, h3]
        exact ⟨_, by rw [List.append_assoc, List.append_assoc]⟩
      · simp only [copyContentPrim, h3]
        exact ⟨_, by rw [List.append_assoc, List.append_assoc]⟩

theorem uploadControlPlaneServices_elems (env : Env) (config : ClusterConfig) :
    DeltaElems (uploadControlPlaneServices env config)
      (fun a => ∃ h rp ct ok, a = Action.copyContent h rp ct ok) := by
  intro s a ha
  unfold uploadControlPlaneServices at ha
  rcases h1 : env.copyContentOk s.idx with _ | _ <;>
    simp only [copyContentPrim, h1] at ha
  · rcases List.mem_append.mp ha with h | h
    · exact Or.inl h
    · exact Or.inr ⟨_, _, _, _, by simpa using h⟩
  · rcases h2 : env.copyContentOk (s.idx + 1) with _ | _ <;>
      simp only [copyContentPrim, h2] at ha
    · simp only [List.append_assoc, List.mem_append] at ha
      rcases ha with h | h
      · exact Or.inl h
      · simp only [List.mem_append, List.mem_singleton] at h
        rcases h with h | h <;> exact Or.inr ⟨_, _, _, _, by simpa using h⟩
    · rcases h3 : env.copyContentOk (s.idx + 1 + 1) with _ | _ <;>
        simp only [copyContentPrim, h3] at ha <;>
        simp only [List.append_assoc, List.mem_append] at ha
      · rcases ha with h | h
        · exact Or.inl h
        · simp only [List.mem_append, List.mem_singleton] at h
          rcases h with h | h | h <;> exact Or.inr ⟨_, _, _, _, by simpa using h⟩
      · rcases ha with h | h
        · exact Or.inl h
        · simp only [List.mem_append, List.mem_singleton] at h
          rcases h with h | h | h <;> exact Or.inr ⟨_, _, _, _, by simpa using h⟩

theorem controlPlanePrep_traceMono (env : Env) (config : ClusterConfig)
    (workDir : String) : TraceMono (controlPlanePrep env config workDir) := by
  unfold controlPlanePrep
  exact traceMono_andThen (runCmds_traceMono _ _ _ _)
    (traceMono_andThen (copyEtcdCertsLoop_traceMono _ _ _ _)
      (traceMono_andThen (uploadEtcdService_traceMono _ _)
        (traceMono_andThen (runCmds_traceMono _ _ _ _)
          (traceMono_andThen (copyK8sFilesLoop_traceMono _ _ _ _)
            (traceMono_andThen (uploadControlPlaneServices_traceMono _ _)
              (startEtcd_traceMono _ _))))))

theorem lastServicesLoop_traceMono (env : Env) (config : ClusterConfig) :
    ∀ services : List String, TraceMono (lastServicesLoop env config services) := by
  intro services
  induction services with
  | nil => intro s; exact ⟨[], (List.append_nil _).symm⟩
  | cons svc rest ih =>
    intro s
    rw [lastServicesLoop_cons]
    exact traceMono_andThen (startServiceStep_traceMono _ _ _)
      (traceMono_andThen (gate_traceMono _ _ _ _ _) ih) s

/-- Two strings whose (literal) heads are prefix-incompatible are
different, whatever follows the heads. -/
theorem ne_of_conflicting_prefixes (a b c t : String)
    (hac : a.data <+: c.data) (hbt : b.data <+: t.data)
    (h1 : ¬ a.data <+: b.data) (h2 : ¬ b.data <+: a.data) : c ≠ t := by
  intro he
  rw [he] at hac
  rcases List.prefix_or_prefix_of_prefix hac hbt with h | h
  · exact h1 h
  · exact h2 h

/-- The fixed head of every `systemctl enable && start` command. -/
theorem startServiceCmd_head (u : String) :
    "sudo systemctl enable ".data <+: (startServiceCmd u).data := by
  unfold startServiceCmd
  simp only [String.data_append, List.append_assoc]
  exact List.prefix_append _ _

theorem etcdCommands_ne_start (config : ClusterConfig) (u : String) :
    ∀ c ∈ etcdCommands config, c ≠ startServiceCmd u := by
  intro c hc
  simp only [etcdCommands, List.mem_cons, List.not_mem_nil, or_false] at hc
  rcases hc with rfl | rfl | rfl | rfl | rfl | rfl | rfl | rfl
  · exact ne_of_conflicting_prefixes _ "sudo systemctl enable " _ _
      List.prefix_rfl (startServiceCmd_head u) (by decide) (by decide)
  · exact ne_of_conflicting_prefixes _ "sudo systemctl enable " _ _
      List.prefix_rfl (startServiceCmd_head u) (by decide) (by decide)
  · exact ne_of_conflicting_prefixes _ "sudo systemctl enable " _ _
      List.prefix_rfl (startServiceCmd_head u) (by decide) (by decide)
  · exact ne_of_conflicting_prefixes _ "sudo systemctl enable " _ _
      List.prefix_rfl (startServiceCmd_head u) (by decide) (by decide)
  · refine ne_of_conflicting_prefixes
      "wget -q --show-progress --https-only --timestamping 'https://github.com/etcd-io/etcd/releases/download/"
      "sudo systemctl enable " _ _ ?_ (startServiceCmd_head u) (by decide) (by decide)
    simp only [String.data_append, List.append_assoc]
    exact List.prefix_append _ _
  · refine ne_of_conflicting_prefixes "tar -xzf etcd-" "sudo systemctl enable " _ _
      ?_ (startServiceCmd_head u) (by decide) (by decide)
    simp only [String.data_append, List.append_assoc]
    exact List.prefix_append _ _
  · refine ne_of_conflicting_prefixes "sudo mv etcd-" "sudo systemctl enable " _ _
      ?_ (startServiceCmd_head u) (by decide) (by decide)
    simp only [String.data_append, List.append_assoc]
    exact List.prefix_append _ _
  · refine ne_of_conflicting_prefixes "rm -f etcd-" "sudo systemctl enable " _ _
      ?_ (startServiceCmd_head u) (by decide) (by decide)
    simp only [String.data_append, List.append_assoc]
    exact List.prefix_append _ _

theorem k8sControllerCommands_ne_start (config : ClusterConfig) (u : String) :
    ∀ c ∈ k8sControllerCommands config, c ≠ startServiceCmd u := by
  intro c hc
  simp only [k8sControllerCommands, List.mem_cons, List.not_mem_nil, or_false] at hc
  rcases hc with rfl | rfl | rfl | rfl
  · exact ne_of_conflicting_prefixes _ "sudo systemctl enable " _ _
      List.prefix_rfl (startServiceCmd_head u) (by decide) (by decide)
  · refine ne_of_conflicting_prefixes
      "wget -q --show-progress --https-only --timestamping 'https://storage.googleapis.com/kubernetes-release/release/"
      "sudo systemctl enable " _ _ ?_ (startServiceCmd_head u) (by decide) (by decide)
    simp only [String.data_append, List.append_assoc]
    exact List.prefix_append _ _
  · exact ne_of_conflicting_prefixes _ "sudo systemctl enable " _ _
      List.prefix_rfl (startServiceCmd_head u) (by decide) (by decide)
  · exact ne_of_conflicting_prefixes _ "sudo systemctl enable " _ _
      List.prefix_rfl (startServiceCmd_head u) (by decide) (by decide)

theorem chown_ne_start (f u : String) :
    "sudo chown etcd:etcd /etc/etcd/" ++ f ≠ startServiceCmd u := by
  refine ne_of_conflicting_prefixes "sudo chown etcd:etcd /etc/etcd/"
    "sudo systemctl enable " _ _ ?_ (startServiceCmd_head u) (by decide) (by decide)
  rw [String.data_append]
  exact List.prefix_append _ _

theorem startEtcdCmd_ne_start (u : String) : startEtcdCmd ≠ startServiceCmd u := by
  exact ne_of_conflicting_prefixes startEtcdCmd "sudo systemctl enable " _ _
    List.prefix_rfl (startServiceCmd_head u) (by decide) (by decide)

theorem probeCmd_ne_start (unit u : String) : probeCmd unit ≠ startServiceCmd u := by
  refine ne_of_conflicting_prefixes "sudo systemctl is-active "
    "sudo systemctl enable " _ _ ?_ (startServiceCmd_head u) (by decide) (by decide)
  rw [probeCmd, String.data_append]
  exact List.prefix_append _ _

theorem controlPlanePrep_notStart (env : Env) (config : ClusterConfig)
    (workDir : String) (u : String) :
    DeltaElems (controlPlanePrep env config workDir)
      (NotStartOf config.controller.ipAddress (startServiceCmd u)) := by
  unfold controlPlanePrep
  refine deltaElems_andThen (deltaElems_mono (runCmds_elems _ _ _ _) ?_)
    (deltaElems_andThen (deltaElems_mono (copyEtcdCertsLoop_elems _ _ _ _) ?_)
      (deltaElems_andThen (deltaElems_mono (uploadEtcdService_elems _ _) ?_)
        (deltaElems_andThen (deltaElems_mono (runCmds_elems _ _ _ _) ?_)
          (deltaElems_andThen (deltaElems_mono (copyK8sFilesLoop_elems _ _ _ _) ?_)
            (deltaElems_andThen (deltaElems_mono (uploadControlPlaneServices_elems _ _) ?_)
              (deltaElems_mono (startEtcd_elems _ _) ?_))))))
  · rintro a ⟨c, r, hc, rfl⟩ r' he
    injection he with h1 h2
    exact etcdCommands_ne_start config u c hc h2
  · rintro a (⟨h, l, rp, ok, rfl⟩ | ⟨f, r, rfl⟩) r' he
    · exact Action.noConfusion he
    · injection he with h1 h2
      exact chown_ne_start f u h2
  · rintro a ⟨h, rp, ct, ok, rfl⟩ r' he
    exact Action.noConfusion he
  · rintro a ⟨c, r, hc, rfl⟩ r' he
    injection he with h1 h2
    exact k8sControllerCommands_ne_start config u c hc h2
  · rintro a ⟨h, l, rp, ok, rfl⟩ r' he
    exact Action.noConfusion he
  · rintro a ⟨h, rp, ct, ok, rfl⟩ r' he
    exact Action.noConfusion he
  · rintro a ⟨r, rfl⟩ r' he
    injection he with h1 h2
    exact startEtcdCmd_ne_start u h2

theorem controlPlaneToApiStart_notStart (env : Env) (config : ClusterConfig)
    (workDir : String) (u : String)
    (hApi : startServiceCmd "kube-apiserver" ≠ startServiceCmd u) :
    DeltaElems (controlPlaneToApiStart env config workDir)
      (NotStartOf config.controller.ipAddress (startServiceCmd u)) := by
  unfold controlPlaneToApiStart
  refine deltaElems_andThen (controlPlanePrep_notStart env config workDir u)
    (deltaElems_andThen (deltaElems_mono (gate_elems _ _ _ _ _) ?_)
      (deltaElems_mono (startApiServer_elems _ _) ?_))
  · rintro a (⟨r, rfl⟩ | rfl) r' he
    · injection he with h1 h2
      exact probeCmd_ne_start "etcd" u h2
    · exact Action.noConfusion he
  · rintro a ⟨r, rfl⟩ r' he
    injection he with h1 h2
    exact hApi h2

theorem controlPlaneToKcmStart_notStart (env : Env) (config : ClusterConfig)
    (workDir : String) (u : String)
    (hApi : startServiceCmd "kube-apiserver" ≠ startServiceCmd u)
    (hKcm : startServiceCmd "kube-controller-manager" ≠ startServiceCmd u) :
    DeltaElems (controlPlaneToKcmStart env config workDir)
      (NotStartOf config.controller.ipAddress (startServiceCmd u)) := by
  unfold controlPlaneToKcmStart
  refine deltaElems_andThen (controlPlaneToApiStart_notStart env config workDir u hApi)
    (deltaElems_andThen (deltaElems_mono (gate_elems _ _ _ _ _) ?_)
      (deltaElems_mono (startServiceStep_elems _ _ _) ?_))
  · rintro a (⟨r, rfl⟩ | rfl) r' he
    · injection he with h1 h2
      exact probeCmd_ne_start "kube-apiserver" u h2
    · exact Action.noConfusion he
  · rintro a ⟨r, rfl⟩ r' he
    injection he with h1 h2
    exact hKcm h2

theorem setupControlPlane_eq_kcmSplit (env : Env) (config : ClusterConfig)
    (workDir : String) (s : St) :
    setupControlPlane env config workDir s =
      andThen (controlPlaneToApiStart env config workDir s) fun s9 =>
        andThen (gate env config.controller.ipAddress "kube-apiserver" 60
            "kube-apiserver failed to become healthy" s9)
          (lastServicesLoop env config
            ["kube-controller-manager", "kube-scheduler"]) := by
  unfold setupControlPlane controlPlaneToApiStart
  simp only [andThen_assoc]

theorem setupControlPlane_eq_schedSplit (env : Env) (config : ClusterConfig)
    (workDir : String) (s : St) :
    setupControlPlane env config workDir s =
      andThen (controlPlaneToKcmStart env config workDir s) fun s11 =>
        andThen (gate env config.controller.ipAddress "kube-controller-manager" 30
            ("kube-controller-manager" ++ " failed to become healthy") s11)
          (lastServicesLoop env config ["kube-scheduler"]) := by
  unfold setupControlPlane controlPlaneToKcmStart controlPlaneToApiStart
  simp only [lastServicesLoop_cons, andThen_assoc]

theorem gate_fst (env : Env) (host unit : String) (t : Nat) (ctx : String) (s : St) :
    (gate env host unit t ctx s).1 = (waitForService env host unit t s).1 := by
  unfold gate
  rcases hw : waitForService env host unit t s with ⟨s1, r⟩
  rcases r with e | u <;> rfl

theorem gate_ok (env : Env) (host unit : String) (t : Nat) (ctx : String) (s : St)
    (h : (gate env host unit t ctx s).2 = Except.ok ()) :
    (waitForService env host unit t s).2 = Except.ok () := by
  unfold gate at h
  rcases hw : waitForService env host unit t s with ⟨s1, r⟩
  rw [hw] at h
  rcases r with e | u
  · exact Except.noConfusion h
  · rfl

/-- Splitting a phase of the shape `prep; gate; rest` at the gate: either
the whole run never gets past the gate (every trace element comes from the
prep or the gate itself, hence satisfies `P`), or the trace contains a
successful `active` probe all of whose predecessors satisfy `P`. -/
theorem split_after_gate {env : Env} {host unit : String} {t : Nat} {ctx : String}
    {prep rest : St → St × Except Err Unit} {P : Action → Prop}
    (hprep : DeltaElems prep P)
    (hprobe : ∀ r, P (Action.exec host (probeCmd unit) r))
    (hsleep : P (Action.sleep 5))
    (hrest : TraceMono rest)
    (s : St) (hs : s.trace = []) :
    (∀ a ∈ (andThen (prep s) fun s7 =>
        andThen (gate env host unit t ctx s7) rest).1.trace, P a) ∨
    (∃ pre out post,
      (andThen (prep s) fun s7 =>
        andThen (gate env host unit t ctx s7) rest).1.trace =
          pre ++ Action.exec host (probeCmd unit) (some out) :: post ∧
      out.trim = "active" ∧ ∀ a ∈ pre, P a) := by
  have hpre7 : ∀ a ∈ (prep s).1.trace, P a := by
    intro a ha
    rcases hprep s a ha with h | h
    · rw [hs] at h
      exact absurd h (List.not_mem_nil a)
    · exact h
  rcases hp : (prep s).2 with e | u
  · left
    rw [andThen_error hp]
    intro a ha
    exact hpre7 a ha
  · cases u
    rw [andThen_ok hp]
    have hgateElem : ∀ a ∈ (gate env host unit t ctx (prep s).1).1.trace, P a := by
      intro a ha
      rcases gate_elems env host unit t ctx (prep s).1 a ha with h | h
      · exact hpre7 a h
      · rcases h with ⟨r, rfl⟩ | rfl
        · exact hprobe r
        · exact hsleep
    rcases hg : (gate env host unit t ctx (prep s).1).2 with e | u2
    · left
      rw [andThen_error hg]
      intro a ha
      exact hgateElem a ha
    · cases u2
      rw [andThen_ok hg]
      have hwok := gate_ok env host unit t ctx (prep s).1 hg
      obtain ⟨pre', out, htr, hact, hpre'⟩ :=
        waitForService_ok env host unit t (prep s).1 hwok
      obtain ⟨Δr, hΔr⟩ := hrest (gate env host unit t ctx (prep s).1).1
      right
      refine ⟨(prep s).1.trace ++ pre', out, Δr, ?_, hact, ?_⟩
      · rw [hΔr, gate_fst, htr]
        simp [List.append_assoc]
      · intro a ha
        rcases List.mem_append.mp ha with h | h
        · exact hpre7 a h
        · rcases hpre' a h with ⟨r, rfl⟩ | rfl
          · exact hprobe r
          · exact hsleep

/-- In a trace of the shape `pre ++ probe :: post` where everything in
`pre` satisfies `P`, an element that neither satisfies `P` nor is the
probe can only sit strictly after the probe. -/
theorem probe_position {T pre post : List Action} {probe target : Action}
    {P : Action → Prop}
    (hT : T = pre ++ probe :: post) (hpre : ∀ a ∈ pre, P a)
    (hnp : ¬ P target) (hnprobe : target ≠ probe)
    {j : Nat} (hj : T[j]? = some target) :
    T[pre.length]? = some probe ∧ pre.length < j := by
  subst hT
  have hjlen : pre.length ≤ j := by
    by_contra hlt
    push_neg at hlt
    rw [List.getElem?_append_left hlt] at hj
    exact hnp (hpre target (List.getElem?_mem hj))
  have hat : (pre ++ probe :: post)[pre.length]? = some probe := by
    rw [List.getElem?_append_right (le_refl pre.length)]
    simp
  refine ⟨hat, ?_⟩
  rcases Nat.lt_or_ge pre.length j with h | h
  · exact h
  · exfalso
    have hje : j = pre.length := le_antisymm h hjlen
    rw [hje] at hj
    have := hat.symm.trans hj
    injection this with h'
    exact hnprobe h'.symm

/-- C2.  In the Controller phase, starting from an empty trace, the
command starting kube-apiserver is issued only strictly after an
`is-active etcd` probe whose trimmed output was `active` (and likewise
kube-controller-manager only after an active kube-apiserver probe, and
kube-scheduler only after an active kube-controller-manager probe); and
`waitForService` polls every five seconds until the trimmed output equals
`active` or the deadline elapses, returning on timeout the
unhealthy-service error naming the unit. -/
theorem setupControlPlane_health_gates (env : Env) (config : ClusterConfig)
    (workDir : String) (s : St) (hs : s.trace = []) :
    HealthGateOrdering env config workDir s ∧ WaitForServicePolling env := by
  constructor
  · refine ⟨?_, ?_, ?_⟩
    · intro j r hj
      have hprobe : ∀ r', NotStartOf config.controller.ipAddress
          (startServiceCmd "kube-apiserver")
          (Action.exec config.controller.ipAddress (probeCmd "etcd") r') := by
        intro r' r'' he
        injection he with h1 h2
        exact probeCmd_ne_start "etcd" "kube-apiserver" h2
      have hsleep : NotStartOf config.controller.ipAddress
          (startServiceCmd "kube-apiserver") (Action.sleep 5) := by
        intro r'' he
        exact Action.noConfusion he
      have hrest : TraceMono (fun s8 =>
          andThen (startApiServer env config s8) fun s9 =>
          andThen (gate env config.controller.ipAddress "kube-apiserver" 60
              "kube-apiserver failed to become healthy" s9) fun s10 =>
          lastServicesLoop env config
            ["kube-controller-manager", "kube-scheduler"] s10) :=
        traceMono_andThen (startApiServer_traceMono env config)
          (traceMono_andThen (gate_traceMono _ _ _ _ _)
            (lastServicesLoop_traceMono env config _))
      have hsplit := @split_after_gate env config.controller.ipAddress "etcd" 30
        "etcd failed to become healthy" (controlPlanePrep env config workDir) _
        (NotStartOf config.controller.ipAddress (startServiceCmd "kube-apiserver"))
        (controlPlanePrep_notStart env config workDir "kube-apiserver")
        hprobe hsleep hrest s hs
      have hEq : setupControlPlane env config workDir s =
          andThen (controlPlanePrep env config workDir s) fun s7 =>
            andThen (gate env config.controller.ipAddress "etcd" 30
                "etcd failed to become healthy" s7) fun s8 =>
            andThen (startApiServer env config s8) fun s9 =>
            andThen (gate env config.controller.ipAddress "kube-apiserver" 60
                "kube-apiserver failed to become healthy" s9) fun s10 =>
            lastServicesLoop env config
              ["kube-controller-manager", "kube-scheduler"] s10 := rfl
      rw [← hEq] at hsplit
      rcases hsplit with hall | ⟨pre, out, post, hTeq, hact, hpreP⟩
      · exact absurd rfl (hall _ (List.getElem?_mem hj) r)
      · have hnp : ¬ NotStartOf config.controller.ipAddress
            (startServiceCmd "kube-apiserver")
            (Action.exec config.controller.ipAddress
              (startServiceCmd "kube-apiserver") r) := fun hNS => hNS r rfl
        have hnprobe : Action.exec config.controller.ipAddress
            (startServiceCmd "kube-apiserver") r ≠
            Action.exec config.controller.ipAddress (probeCmd "etcd") (some out) := by
          intro he
          injection he with h1 h2
          exact probeCmd_ne_start "etcd" "kube-apiserver" h2.symm
        obtain ⟨hat, hlt⟩ := probe_position hTeq hpreP hnp hnprobe hj
        exact ⟨pre.length, out, hlt, hat, hact⟩
    · intro j r hj
      have hprobe : ∀ r', NotStartOf config.controller.ipAddress
          (startServiceCmd "kube-controller-manager")
          (Action.exec config.controller.ipAddress
            (probeCmd "kube-apiserver") r') := by
        intro r' r'' he
        injection he with h1 h2
        exact probeCmd_ne_start "kube-apiserver" "kube-controller-manager" h2
      have hsleep : NotStartOf config.controller.ipAddress
          (startServiceCmd "kube-controller-manager") (Action.sleep 5) := by
        intro r'' he
        exact Action.noConfusion he
      have hsplit := @split_after_gate env config.controller.ipAddress
        "kube-apiserver" 60 "kube-apiserver failed to become healthy"
        (controlPlaneToApiStart env config workDir) _
        (NotStartOf config.controller.ipAddress
          (startServiceCmd "kube-controller-manager"))
        (controlPlaneToApiStart_notStart env config workDir
          "kube-controller-manager" (by decide))
        hprobe hsleep
        (lastServicesLoop_traceMono env config
          ["kube-controller-manager", "kube-scheduler"]) s hs
      rw [← setupControlPlane_eq_kcmSplit env config workDir s] at hsplit
      rcases hsplit with hall | ⟨pre, out, post, hTeq, hact, hpreP⟩
      · exact absurd rfl (hall _ (List.getElem?_mem hj) r)
      · have hnp : ¬ NotStartOf config.controller.ipAddress
            (startServiceCmd "kube-controller-manager")
            (Action.exec config.controller.ipAddress
              (startServiceCmd "kube-controller-manager") r) := fun hNS => hNS r rfl
        have hnprobe : Action.exec config.controller.ipAddress
            (startServiceCmd "kube-controller-manager") r ≠
            Action.exec config.controller.ipAddress
              (probeCmd "kube-apiserver") (some out) := by
          intro he
          injection he with h1 h2
          exact probeCmd_ne_start "kube-apiserver" "kube-controller-manager" h2.symm
        obtain ⟨hat, hlt⟩ := probe_position hTeq hpreP hnp hnprobe hj
        exact ⟨pre.length, out, hlt, hat, hact⟩
    · intro j r hj
      have hprobe : ∀ r', NotStartOf config.controller.ipAddress
          (startServiceCmd "kube-scheduler")
          (Action.exec config.controller.ipAddress
            (probeCmd "kube-controller-manager") r') := by
        intro r' r'' he
        injection he with h1 h2
        exact probeCmd_ne_start "kube-controller-manager" "kube-scheduler" h2
      have hsleep : NotStartOf config.controller.ipAddress
          (startServiceCmd "kube-scheduler") (Action.sleep 5) := by
        intro r'' he
        exact Action.noConfusion he
      have hsplit := @split_after_gate env config.controller.ipAddress
        "kube-controller-manager" 30
        ("kube-controller-manager" ++ " failed to become healthy")
        (controlPlaneToKcmStart env config workDir) _
        (NotStartOf config.controller.ipAddress (startServiceCmd "kube-scheduler"))
        (controlPlaneToKcmStart_notStart env config workDir
          "kube-scheduler" (by decide) (by decide))
        hprobe hsleep
        (lastServicesLoop_traceMono env config ["kube-scheduler"]) s hs
      rw [← setupControlPlane_eq_schedSplit env config workDir s] at hsplit
      rcases hsplit with hall | ⟨pre, out, post, hTeq, hact, hpreP⟩
      · exact absurd rfl (hall _ (List.getElem?_mem hj) r)
      · have hnp : ¬ NotStartOf config.controller.ipAddress
            (startServiceCmd "kube-scheduler")
            (Action.exec config.controller.ipAddress
              (startServiceCmd "kube-scheduler") r) := fun hNS => hNS r rfl
        have hnprobe : Action.exec config.controller.ipAddress
            (startServiceCmd "kube-scheduler") r ≠
            Action.exec config.controller.ipAddress
              (probeCmd "kube-controller-manager") (some out) := by
          intro he
          injection he with h1 h2
          exact probeCmd_ne_start "kube-controller-manager" "kube-scheduler" h2.symm
        obtain ⟨hat, hlt⟩ := probe_position hTeq hpreP hnp hnprobe hj
        exact ⟨pre.length, out, hlt, hat, hact⟩
  · refine ⟨?_, ?_, ?_, ?_⟩
    · intro host unit t dl s' hdl
      rw [waitLoop, dif_neg hdl]
    · intro host unit t dl s' out hdl hso hact
      rw [waitLoop, dif_pos hdl]
      have hr2 : (execCmd env host (probeCmd unit) s').2 =
          env.execRes s'.idx host (probeCmd unit) := rfl
      rw [hr2.trans hso]
      dsimp only
      rw [if_pos hact]
    · intro host unit t dl s' hdl hbad
      conv_lhs => rw [waitLoop]
      rw [dif_pos hdl]
      have hr2 : (execCmd env host (probeCmd unit) s').2 =
          env.execRes s'.idx host (probeCmd unit) := rfl
      rcases hbad with hnone | ⟨out, hso, hact⟩
      · rw [hr2.trans hnone]
      · rw [hr2.trans hso]
        dsimp only
        rw [if_neg hact]
    · intro host unit t s' e he
      rcases waitLoop_result_aux env host unit t (s'.time + t - s'.time) _ s'
          (le_refl _) with hok | herr
      · exact Except.noConfusion (hok.symm.trans he)
      · have h' := herr.symm.trans he
        injection h' with h''
        exact h''.symm

/-- Witness for `setupControlPlane_health_gates` at the default
configuration, an all-healthy transport and the empty initial state. -/
theorem setupControlPlane_health_gates_witness :
    st0.trace = [] ∧
    (HealthGateOrdering envAllActive GenerateDefaultConfig "w" st0 ∧
     WaitForServicePolling envAllActive) :=
  ⟨rfl, setupControlPlane_health_gates envAllActive GenerateDefaultConfig "w" st0 rfl⟩

theorem routeInnerLoop_ok (env : Env) (w : Node) :
    ∀ (others : List Node) (s : St),
      (routeInnerLoop env w others s).2 = Except.ok () →
      ∃ Δ, (routeInnerLoop env w others s).1.trace = s.trace ++ Δ ∧
        Δ.map execKey = keysOf w others ∧
        ∀ act ∈ Δ, ∃ c r, act = Action.exec w.ipAddress c r := by
  intro others
  induction others with
  | nil =>
    intro s h
    exact ⟨[], (List.append_nil _).symm, rfl, by simp⟩
  | cons o rest ih =>
    intro s h
    rw [routeInnerLoop] at h ⊢
    by_cases hn : w.name ≠ o.name
    · rw [if_pos hn] at h ⊢
      rcases hr : env.execRes s.idx w.ipAddress (routeCmd o) with _ | out
      · rw [show execCmd env w.ipAddress (routeCmd o) s =
            ({ s with
               idx := s.idx + 1,
               trace := s.trace ++ [Action.exec w.ipAddress (routeCmd o)
                 (env.execRes s.idx w.ipAddress (routeCmd o))] },
             env.execRes s.idx w.ipAddress (routeCmd o)) from rfl, hr] at h
        exact Except.noConfusion h
      · rw [show execCmd env w.ipAddress (routeCmd o) s =
            ({ s with
               idx := s.idx + 1,
               trace := s.trace ++ [Action.exec w.ipAddress (routeCmd o)
                 (env.execRes s.idx w.ipAddress (routeCmd o))] },
             env.execRes s.idx w.ipAddress (routeCmd o)) from rfl, hr] at h ⊢
        dsimp only at h ⊢
        obtain ⟨Δ, hΔ, hkeys, hexec⟩ := ih _ h
        refine ⟨Action.exec w.ipAddress (routeCmd o) (some out) :: Δ, ?_, ?_, ?_⟩
        · rw [hΔ]
          simp [List.append_assoc]
        · simp only [List.map_cons, execKey, keysOf, List.filter_cons, hn]
          simp only [keysOf] at hkeys
          rw [hkeys]
          simp [hn]
        · intro act hact
          rcases List.mem_cons.mp hact with rfl | hact'
          · exact ⟨routeCmd o, some out, rfl⟩
          · exact hexec act hact'
    · rw [if_neg hn] at h ⊢
      obtain ⟨Δ, hΔ, hkeys, hexec⟩ := ih s h
      refine ⟨Δ, hΔ, ?_, hexec⟩
      rw [hkeys]
      simp only [keysOf, List.filter_cons]
      simp [hn]

theorem routeOuterLoop_ok (env : Env) (allW : List Node) :
    ∀ (ws : List Node) (s : St),
      (routeOuterLoop env allW ws s).2 = Except.ok () →
      ∃ Δ, (routeOuterLoop env allW ws s).1.trace = s.trace ++ Δ ∧
        Δ.map execKey = ws.flatMap (fun w => keysOf w allW) ∧
        ∀ act ∈ Δ, ∃ w c r, w ∈ ws ∧ act = Action.exec w.ipAddress c r := by
  intro ws
  induction ws with
  | nil =>
    intro s h
    exact ⟨[], (List.append_nil _).symm, rfl, by simp⟩
  | cons w rest ih =>
    intro s h
    rw [routeOuterLoop] at h ⊢
    rcases hInner : (routeInnerLoop env w allW s).2 with e | u
    · rw [andThen_error hInner] at h
      exact Except.noConfusion h
    · cases u
      rw [andThen_ok hInner] at h ⊢
      obtain ⟨Δ1, hΔ1, hkeys1, hexec1⟩ := routeInnerLoop_ok env w allW s hInner
      obtain ⟨Δ2, hΔ2, hkeys2, hexec2⟩ := ih (routeInnerLoop env w allW s).1 h
      refine ⟨Δ1 ++ Δ2, ?_, ?_, ?_⟩
      · rw [hΔ2, hΔ1, List.append_assoc]
      · rw [List.map_append, hkeys1, hkeys2]
        simp [List.flatMap_cons]
      · intro act hact
        rcases List.mem_append.mp hact with h' | h'
        · obtain ⟨c, r, ha⟩ := hexec1 act h'
          exact ⟨w, c, r, List.mem_cons_self w rest, ha⟩
        · obtain ⟨w', c, r, hw', ha⟩ := hexec2 act h'
          exact ⟨w', c, r, List.mem_cons_of_mem w hw', ha⟩

theorem setupNetworking_ok_trace (env : Env) (config : ClusterConfig) (s : St)
    (hok : (setupNetworking env config s).2 = Except.ok ()) :
    ∃ Δ r1 b, (setupNetworking env config s).1.trace = s.trace ++ Δ ++
        [Action.copyContent config.controller.ipAddress "/tmp/coredns.yaml"
          (generateCoreDNSManifest config) b,
         Action.exec config.controller.ipAddress applyCoreDNSCmd r1] ∧
      Δ.map execKey = allRouteKeys config.workers ∧
      ∀ act ∈ Δ, ∃ w c r, w ∈ config.workers ∧ act = Action.exec w.ipAddress c r := by
  unfold setupNetworking at hok ⊢
  rcases hOuter : (routeOuterLoop env config.workers config.workers s).2 with e | u
  · rw [andThen_error hOuter] at hok
    exact Except.noConfusion hok
  · cases u
    rw [andThen_ok hOuter] at hok ⊢
    obtain ⟨Δ, hΔ, hkeys, hexec⟩ :=
      routeOuterLoop_ok env config.workers config.workers s hOuter
    rcases hcp : env.copyContentOk (routeOuterLoop env config.workers config.workers s).1.idx
      with _ | _
    · rw [show copyContentPrim env config.controller.ipAddress
          (generateCoreDNSManifest config) "/tmp/coredns.yaml"
          (routeOuterLoop env config.workers config.workers s).1 =
          ({ (routeOuterLoop env config.workers config.workers s).1 with
             idx := (routeOuterLoop env config.workers config.workers s).1.idx + 1,
             trace := (routeOuterLoop env config.workers config.workers s).1.trace ++
               [Action.copyContent config.controller.ipAddress "/tmp/coredns.yaml"
                 (generateCoreDNSManifest config)
                 (env.copyContentOk (routeOuterLoop env config.workers config.workers s).1.idx)] },
           env.copyContentOk (routeOuterLoop env config.workers config.workers s).1.idx)
          from rfl, hcp] at hok
      exact Except.noConfusion hok
    · rw [show copyContentPrim env config.controller.ipAddress
          (generateCoreDNSManifest config) "/tmp/coredns.yaml"
          (routeOuterLoop env config.workers config.workers s).1 =
          ({ (routeOuterLoop env config.workers config.workers s).1 with
             idx := (routeOuterLoop env config.workers config.workers s).1.idx + 1,
             trace := (routeOuterLoop env config.workers config.workers s).1.trace ++
               [Action.copyContent config.controller.ipAddress "/tmp/coredns.yaml"
                 (generateCoreDNSManifest config)
                 (env.copyContentOk (routeOuterLoop env config.workers config.workers s).1.idx)] },
           env.copyContentOk (routeOuterLoop env config.workers config.workers s).1.idx)
          from rfl, hcp] at hok ⊢
      dsimp only at hok ⊢
      rcases hr : env.execRes ((routeOuterLoop env config.workers config.workers s).1.idx + 1)
          config.controller.ipAddress applyCoreDNSCmd with _ | out
      · rw [show execCmd env config.controller.ipAddress applyCoreDNSCmd
            ({ (routeOuterLoop env config.workers config.workers s).1 with
               idx := (routeOuterLoop env config.workers config.workers s).1.idx + 1,
               trace := (routeOuterLoop env config.workers config.workers s).1.trace ++
                 [Action.copyContent config.controller.ipAddress "/tmp/coredns.yaml"
                   (generateCoreDNSManifest config) true] }) =
            ({ (routeOuterLoop env config.workers config.workers s).1 with
               idx := (routeOuterLoop env config.workers config.workers s).1.idx + 1 + 1,
               trace := ((routeOuterLoop env config.workers config.workers s).1.trace ++
                 [Action.copyContent config.controller.ipAddress "/tmp/coredns.yaml"
                   (generateCoreDNSManifest config) true]) ++
                 [Action.exec config.controller.ipAddress applyCoreDNSCmd
                   (env.execRes ((routeOuterLoop env config.workers config.workers s).1.idx + 1)
                     config.controller.ipAddress applyCoreDNSCmd)] },
             env.execRes ((routeOuterLoop env config.workers config.workers s).1.idx + 1)
               config.controller.ipAddress applyCoreDNSCmd) from rfl, hr] at hok
        exact Except.noConfusion hok
      · rw [show execCmd env config.controller.ipAddress applyCoreDNSCmd
            ({ (routeOuterLoop env config.workers config.workers s).1 with
               idx := (routeOuterLoop env config.workers config.workers s).1.idx + 1,
               trace := (routeOuterLoop env config.workers config.workers s).1.trace ++
                 [Action.copyContent config.controller.ipAddress "/tmp/coredns.yaml"
                   (generateCoreDNSManifest config) true] }) =
            ({ (routeOuterLoop env config.workers config.workers s).1 with
               idx := (routeOuterLoop env config.workers config.workers s).1.idx + 1 + 1,
               trace := ((routeOuterLoop env config.workers config.workers s).1.trace ++
                 [Action.copyContent config.controller.ipAddress "/tmp/coredns.yaml"
                   (generateCoreDNSManifest config) true]) ++
                 [Action.exec config.controller.ipAddress applyCoreDNSCmd
                   (env.execRes ((routeOuterLoop env config.workers config.workers s).1.idx + 1)
                     config.controller.ipAddress applyCoreDNSCmd)] },
             env.execRes ((routeOuterLoop env config.workers config.workers s).1.idx + 1)
               config.controller.ipAddress applyCoreDNSCmd) from rfl, hr] at hok ⊢
        dsimp only at hok ⊢
        refine ⟨Δ, some out, true, ?_, hkeys, hexec⟩
        rw [hΔ]
        simp [List.append_assoc]

theorem count_eq_one_of_nodup_mem {α : Type} [BEq α] [LawfulBEq α] {l : List α}
    {a : α} (hd : l.Nodup) (ha : a ∈ l) : l.count a = 1 := by
  induction l with
  | nil => exact absurd ha (List.not_mem_nil a)
  | cons b l ih =>
    rw [List.nodup_cons] at hd
    rw [List.count_cons]
    rcases List.mem_cons.mp ha with rfl | ha'
    · rw [List.count_eq_zero.mpr hd.1]
      simp
    · have hba : b ≠ a := fun he => hd.1 (he ▸ ha')
      have hbeq : (b == a) = false := beq_eq_false_iff_ne.mpr hba
      rw [hbeq, ih hd.2 ha']
      simp

theorem length_filter_isExecOf (host cmd : String) :
    ∀ Δ : List Action,
      (∀ act ∈ Δ, ∃ h' c' r, act = Action.exec h' c' r) →
      (Δ.filter (isExecOf host cmd)).length = (Δ.map execKey).count (host, cmd) := by
  intro Δ
  induction Δ with
  | nil => intro _; rfl
  | cons act rest ih =>
    intro hexec
    have hrest := fun a ha => hexec a (List.mem_cons_of_mem act ha)
    obtain ⟨h', c', r, rfl⟩ := hexec _ (List.mem_cons_self act rest)
    by_cases hk : (h', c') = (host, cmd)
    · rw [Prod.mk.injEq] at hk
      obtain ⟨rfl, rfl⟩ := hk
      have htrue : isExecOf h' c' (Action.exec h' c' r) = true := by
        simp [isExecOf]
      simp only [List.filter_cons, htrue, if_true, List.length_cons, List.map_cons,
        execKey, List.count_cons, beq_self_eq_true]
      rw [ih hrest]
    · have hfalse : isExecOf host cmd (Action.exec h' c' r) = false := by
        simp only [isExecOf, decide_eq_false_iff_not]
        intro hcontra
        exact hk (by rw [Prod.mk.injEq]; exact hcontra)
      have hbeq : ((((h', c') : String × String)) == (host, cmd)) = false :=
        beq_eq_false_iff_ne.mpr hk
      simp only [List.filter_cons, hfalse, Bool.false_eq_true, if_false,
        List.map_cons, execKey, List.count_cons, hbeq]
      rw [ih hrest]
      simp

theorem keysOf_nodup (w : Node) (ws : List Node)
    (hroutes : (ws.map routeCmd).Nodup) : (keysOf w ws).Nodup := by
  have h1 : ((ws.filter (fun o => w.name ≠ o.name)).map routeCmd).Nodup :=
    hroutes.sublist (List.Sublist.map routeCmd (List.filter_sublist ws))
  have h2 : keysOf w ws =
      ((ws.filter (fun o => w.name ≠ o.name)).map routeCmd).map
        (Prod.mk w.ipAddress) := by
    rw [List.map_map]
    rfl
  rw [h2]
  refine h1.map ?_
  intro x y hxy
  injection hxy with h1' h2'

theorem allRouteKeys_nodup (ws : List Node)
    (hips : (ws.map Node.ipAddress).Nodup)
    (hroutes : (ws.map routeCmd).Nodup) : (allRouteKeys ws).Nodup := by
  unfold allRouteKeys
  rw [List.nodup_flatMap]
  constructor
  · intro w _
    exact keysOf_nodup w ws hroutes
  · have hpw : ws.Pairwise (fun a b => a.ipAddress ≠ b.ipAddress) :=
      List.pairwise_map.mp hips
    refine hpw.imp ?_
    intro a b hab k hka hkb
    obtain ⟨o1, _, rfl⟩ := List.mem_map.mp hka
    obtain ⟨o2, _, hk2⟩ := List.mem_map.mp hkb
    exact hab (congrArg Prod.fst hk2.symm)

theorem key_mem_allRouteKeys {ws : List Node} {a b : Node} (ha : a ∈ ws)
    (hb : b ∈ ws) (hab : a.name ≠ b.name) :
    (a.ipAddress, routeCmd b) ∈ allRouteKeys ws :=
  List.mem_flatMap.mpr ⟨a, ha,
    List.mem_map.mpr ⟨b, List.mem_filter.mpr ⟨hb, by simp [hab]⟩, rfl⟩⟩

/-- C4.  In a successful Network phase run from an empty trace, under the
data-model invariants (unique worker names, IPs and route commands, and a
controller IP distinct from every worker IP), exactly one
`sudo ip route add <b.podCIDR> via <b.IPAddress> || true` command is
executed on host `a` for every ordered pair `(a, b)` of distinct workers,
and no `ip route add` command is ever executed on the controller host. -/
theorem setupNetworking_routes (env : Env) (config : ClusterConfig) (s : St)
    (hs : s.trace = [])
    (hnames : (config.workers.map Node.name).Nodup)
    (hroutes : (config.workers.map routeCmd).Nodup)
    (hips : (config.workers.map Node.ipAddress).Nodup)
    (hctrl : config.controller.ipAddress ∉ config.workers.map Node.ipAddress)
    (hok : (setupNetworking env config s).2 = Except.ok ()) :
    NetworkRoutesSpec env config s := by
  obtain ⟨Δ, r1, b, htr, hkeys, hexec⟩ := setupNetworking_ok_trace env config s hok
  have hwip : ∀ w ∈ config.workers, w.ipAddress ≠ config.controller.ipAddress := by
    intro w hw he
    exact hctrl (he ▸ List.mem_map_of_mem Node.ipAddress hw)
  constructor
  · intro a ha b' hb hab
    rw [htr, hs]
    rw [List.filter_append, List.length_append]
    have htail : (List.filter (isExecOf a.ipAddress (routeCmd b'))
        [Action.copyContent config.controller.ipAddress "/tmp/coredns.yaml"
          (generateCoreDNSManifest config) b,
         Action.exec config.controller.ipAddress applyCoreDNSCmd r1]).length = 0 := by
      have h1 : isExecOf a.ipAddress (routeCmd b')
          (Action.copyContent config.controller.ipAddress "/tmp/coredns.yaml"
            (generateCoreDNSManifest config) b) = false := rfl
      have h2 : isExecOf a.ipAddress (routeCmd b')
          (Action.exec config.controller.ipAddress applyCoreDNSCmd r1) = false := by
        simp only [isExecOf, decide_eq_false_iff_not]
        intro hcontra
        exact hwip a ha (hcontra.1.symm)
      simp [List.filter_cons, h1, h2]
    rw [htail, Nat.add_zero]
    have hfilterNil : (List.filter (isExecOf a.ipAddress (routeCmd b'))
        ([] : List Action)).length = 0 := rfl
    rw [List.filter_append, List.length_append, hfilterNil, Nat.zero_add]
    rw [length_filter_isExecOf a.ipAddress (routeCmd b') Δ
      (fun act hact => by obtain ⟨w, c, r, _, hw⟩ := hexec act hact; exact ⟨_, _, _, hw⟩)]
    rw [hkeys]
    exact count_eq_one_of_nodup_mem (allRouteKeys_nodup config.workers hips hroutes)
      (key_mem_allRouteKeys ha hb hab)
  · intro act hact
    rw [htr, hs] at hact
    simp only [List.nil_append, List.append_assoc, List.mem_append] at hact
    rcases hact with hact | hact
    · obtain ⟨w, c, r, hw, rfl⟩ := hexec act hact
      simp only [isIpRouteOn, decide_eq_false_iff_not]
      intro hcontra
      exact hwip w hw hcontra.1
    · simp only [List.mem_cons, List.not_mem_nil, or_false] at hact
      rcases hact with rfl | rfl
      · rfl
      · simp only [isIpRouteOn, decide_eq_false_iff_not]
        intro hcontra
        have : ("sudo ip route add ".data.isPrefixOf applyCoreDNSCmd.data) = false := by
          decide
        rw [this] at hcontra
        exact Bool.noConfusion hcontra.2

theorem prereqLoop_fails (env : Env) :
    ∀ (nodes : List Node) (s : St),
      (∃ n ∈ nodes, ∀ i, env.execRes i n.ipAddress "echo 'SSH test'" = none) →
      ∃ e, (prereqLoop env nodes s).2 = Except.error e := by
  intro nodes
  induction nodes with
  | nil =>
    rintro s ⟨n, hn, _⟩
    exact absurd hn (List.not_mem_nil n)
  | cons m rest ih =>
    rintro s ⟨n, hn, hprobe⟩
    rw [prereqLoop]
    rcases hr : env.execRes s.idx m.ipAddress "echo 'SSH test'" with _ | out
    · rw [show execCmd env m.ipAddress "echo 'SSH test'" s =
          ({ s with
             idx := s.idx + 1,
             trace := s.trace ++ [Action.exec m.ipAddress "echo 'SSH test'"
               (env.execRes s.idx m.ipAddress "echo 'SSH test'")] },
           env.execRes s.idx m.ipAddress "echo 'SSH test'") from rfl, hr]
      exact ⟨_, rfl⟩
    · rw [show execCmd env m.ipAddress "echo 'SSH test'" s =
          ({ s with
             idx := s.idx + 1,
             trace := s.trace ++ [Action.exec m.ipAddress "echo 'SSH test'"
               (env.execRes s.idx m.ipAddress "echo 'SSH test'")] },
           env.execRes s.idx m.ipAddress "echo 'SSH test'") from rfl, hr]
      dsimp only
      rcases List.mem_cons.mp hn with rfl | hn'
      · exact absurd ((hprobe s.idx).symm.trans hr) (fun h => Option.noConfusion h)
      · exact ih _ ⟨n, hn', hprobe⟩

theorem prereqLoop_elems (env : Env) :
    ∀ nodes : List Node,
      DeltaElems (prereqLoop env nodes) (fun a => a.isPki = false) := by
  intro nodes
  induction nodes with
  | nil => intro s a ha; exact Or.inl ha
  | cons m rest ih =>
    intro s a ha
    rw [prereqLoop] at ha
    rcases hr : env.execRes s.idx m.ipAddress "echo 'SSH test'" with _ | out <;>
      rw [show execCmd env m.ipAddress "echo 'SSH test'" s =
          ({ s with
             idx := s.idx + 1,
             trace := s.trace ++ [Action.exec m.ipAddress "echo 'SSH test'"
               (env.execRes s.idx m.ipAddress "echo 'SSH test'")] },
           env.execRes s.idx m.ipAddress "echo 'SSH test'") from rfl, hr] at ha
    · simp only [List.mem_append, List.mem_singleton] at ha
      rcases ha with h | h
      · exact Or.inl h
      · rw [h]
        exact Or.inr rfl
    · dsimp only at ha
      rcases ih _ a ha with h | h
      · simp only [List.mem_append, List.mem_singleton] at h
        rcases h with h | h
        · exact Or.inl h
        · rw [h]
          exact Or.inr rfl
      · exact Or.inr h

/-- C6.  If the transport errors on the `echo 'SSH test'` probe for some
node (controller or worker) on every attempt, `SetupCluster` fails inside
the Prereq phase — its error is wrapped with `prerequisites check failed` —
and its trace contains no PKI action (no CA, client or server certificate
is ever generated). -/
theorem setupCluster_prereq_failure (env : Env) (config : ClusterConfig) (s : St)
    (hs : s.trace = [])
    (hfail : ∃ n ∈ nodesOf config,
      ∀ i, env.execRes i n.ipAddress "echo 'SSH test'" = none) :
    (∃ e, (SetupCluster env config s).2 =
      Except.error (Err.wrap "prerequisites check failed" e)) ∧
    ∀ a ∈ (SetupCluster env config s).1.trace, a.isPki = false := by
  obtain ⟨ep, hep⟩ := prereqLoop_fails env (nodesOf config)
    (reportPrim 1 6 "Checking Prerequisites" s) hfail
  have hVeq : ValidateK8sPrerequisites env config
        (reportPrim 1 6 "Checking Prerequisites" s) =
      ((prereqLoop env (nodesOf config)
          (reportPrim 1 6 "Checking Prerequisites" s)).1, Except.error ep) := by
    unfold ValidateK8sPrerequisites
    exact andThen_error hep
  have hS : SetupCluster env config s =
      ((prereqLoop env (nodesOf config)
          (reportPrim 1 6 "Checking Prerequisites" s)).1,
       Except.error (Err.wrap "prerequisites check failed" ep)) := by
    unfold SetupCluster
    rw [show wrapStage "prerequisites check failed"
        (ValidateK8sPrerequisites env config
          (reportPrim 1 6 "Checking Prerequisites" s)) =
        ((prereqLoop env (nodesOf config)
            (reportPrim 1 6 "Checking Prerequisites" s)).1,
         Except.error (Err.wrap "prerequisites check failed" ep)) from by
      rw [hVeq]; rfl]
    exact andThen_error rfl
  constructor
  · exact ⟨ep, by rw [hS]⟩
  · intro a ha
    rw [hS] at ha
    rcases prereqLoop_elems env (nodesOf config)
        (reportPrim 1 6 "Checking Prerequisites" s) a ha with h | h
    · rw [show (reportPrim 1 6 "Checking Prerequisites" s).trace =
          s.trace ++ [Action.report 1 6 "Checking Prerequisites"] from rfl, hs] at h
      simp only [List.nil_append, List.mem_singleton] at h
      rw [h]
      rfl
    · exact h

/-- Witness for `setupCluster_prereq_failure`: a transport for which every
command errors, at the default configuration. -/
theorem setupCluster_prereq_failure_witness :
    (st0.trace = [] ∧
     ∃ n ∈ nodesOf GenerateDefaultConfig, ∀ i : Nat,
       ({ envAllActive with execRes := fun _ _ _ => none } : Env).execRes i
         n.ipAddress "echo 'SSH test'" = none) ∧
    ((∃ e, (SetupCluster { envAllActive with execRes := fun _ _ _ => none }
        GenerateDefaultConfig st0).2 =
        Except.error (Err.wrap "prerequisites check failed" e)) ∧
     ∀ a ∈ (SetupCluster { envAllActive with execRes := fun _ _ _ => none }
        GenerateDefaultConfig st0).1.trace, a.isPki = false) :=
  ⟨⟨rfl, GenerateDefaultConfig.controller, List.mem_cons_self _ _, fun _ => rfl⟩,
   setupCluster_prereq_failure _ GenerateDefaultConfig st0 rfl
     ⟨GenerateDefaultConfig.controller, List.mem_cons_self _ _, fun _ => rfl⟩⟩

/-- Witness for `setupNetworking_routes` at the default configuration and
an all-healthy transport. -/
theorem setupNetworking_routes_witness :
    (st0.trace = [] ∧
     (GenerateDefaultConfig.workers.map Node.name).Nodup ∧
     (GenerateDefaultConfig.workers.map routeCmd).Nodup ∧
     (GenerateDefaultConfig.workers.map Node.ipAddress).Nodup ∧
     GenerateDefaultConfig.controller.ipAddress ∉
       GenerateDefaultConfig.workers.map Node.ipAddress ∧
     (setupNetworking envAllActive GenerateDefaultConfig st0).2 = Except.ok ()) ∧
    NetworkRoutesSpec envAllActive GenerateDefaultConfig st0 :=
  ⟨⟨rfl, by decide, by decide, by decide, by decide, rfl⟩,
   setupNetworking_routes envAllActive GenerateDefaultConfig st0 rfl
     (by decide) (by decide) (by decide) (by decide) rfl⟩

end ClusterSetup
